import Mathlib

/-
Verification of the capture-to-persistence photo pipeline of the
mentra-photo-sender application (src/index.ts).

The TypeScript program is shallowly embedded below.  External effects
(the Python face-analysis HTTP service, Supabase object storage and
record inserts, wall-clock time) are modelled by an explicit
environment value fixed for one button-press pipeline run; the
observable state (stored objects, database rows, service calls made,
text walls shown to the user) is threaded explicitly.  Image bytes are
modelled by their base64 text, so base64 encoding and decoding are
identities of the model.
-/

set_option maxHeartbeats 1000000

namespace MentraPhoto

/-- A captured photo (PhotoData of the device SDK): requestId, timestamp,
image bytes (modelled as their base64 text), mime type, filename, size. -/
structure Photo where
  requestId : String
  timestamp : Nat
  buffer : String
  mimeType : String
  filename : String
  size : Nat
deriving DecidableEq

/-- Result of one HTTP fetch: either the fetch itself throws (network
failure), or a response arrives carrying the ok flag and a parsed body. -/
inductive Fetch (α : Type) where
  | netFail : Fetch α
  | resp (ok : Bool) (body : α) : Fetch α
deriving DecidableEq

/-- Body of a POST /detect-faces response. -/
structure DetectBody where
  has_faces : Bool
  faces_detected : Nat
deriving DecidableEq

/-- One face crop of a POST /crop-faces response body. -/
structure FaceCropData where
  face_id : Nat
  face_crop_base64 : String
  bounding_box : String
  crop_coordinates : String
deriving DecidableEq

/-- Body of a POST /crop-faces response. -/
structure CropBody where
  has_faces : Bool
  faces_detected : Nat
  face_crops : List FaceCropData
deriving DecidableEq

/-- Body of a POST /process-faces response (bounding boxes burned in). -/
structure ProcessBody where
  has_faces : Bool
  faces_detected : Nat
  processed_image : String
deriving DecidableEq

/-- Body of a POST /generate-embedding response. -/
structure EmbedBody where
  success : Bool
  embedding : List Int
  confidence : Nat
  error : String
deriving DecidableEq

/-- Metadata JSON stored with a face-crop row of the testphoto table. -/
structure CropMeta where
  photo_request_id : String
  face_id : Nat
  temp_person_id : String
  bounding_box : String
  crop_coordinates : String
deriving DecidableEq

/-- A row inserted into the testphoto table. -/
structure TestphotoRow where
  image_url : String
  status : String
  created_at : Nat
  metadata : Option CropMeta
deriving DecidableEq

/-- A row inserted into the face_embeddings table. -/
structure EmbeddingRow where
  face_crop_url : String
  embedding : String
  confidence : Nat
  temp_person_id : String
  is_processed : Bool
deriving DecidableEq

/-- One database write, to either of the two tables. -/
inductive DbRecord where
  | photoRow (r : TestphotoRow)
  | embedRow (r : EmbeddingRow)
deriving DecidableEq

/-- An object held in Supabase storage: bucket, path and content. -/
structure StorageObj where
  bucket : String
  path : String
  content : String
deriving DecidableEq

/-- The remote analysis endpoints the app may call during one run. -/
inductive ServiceCall where
  | detectFaces
  | cropFaces
  | processFaces
  | generateEmbedding
deriving DecidableEq

/-- Observable state threaded through one pipeline run: storage objects,
database rows, analysis-service calls made, and text walls shown. -/
structure RunState where
  storage : List StorageObj
  records : List DbRecord
  calls : List ServiceCall
  messages : List String
deriving DecidableEq

/-- Errors thrown inside the pipeline (all caught somewhere above). -/
inductive Err where
  | httpStatus (service : String)
  | duplicateObject (bucket : String) (path : String)
  | storageFailure (bucket : String) (path : String)
  | recordFailure
deriving DecidableEq

/-- Environment of one run: the availability flag cached at startup, the
responses of the analysis service, the failure behaviour of storage
uploads and record inserts, and the current wall-clock instant. -/
structure Env where
  faceApiInitialized : Bool
  detectResp : Fetch DetectBody
  cropResp : Fetch CropBody
  processResp : Fetch ProcessBody
  embedResp : String → Fetch EmbedBody
  uploadFails : String → String → Bool
  insertPhotoRowFails : TestphotoRow → Bool
  insertEmbedRowFails : EmbeddingRow → Bool
  now : Nat

/-- Record one analysis-service call in the trace. -/
def logCall (s : RunState) (c : ServiceCall) : RunState :=
  { s with calls := s.calls ++ [c] }

/-- Record one database row write. -/
def addRecord (s : RunState) (r : DbRecord) : RunState :=
  { s with records := s.records ++ [r] }

/-- session.layouts.showTextWall: show a text wall to the user. -/
def showTextWall (s : RunState) (m : String) : RunState :=
  { s with messages := s.messages ++ [m] }

/-- Look up the object stored at a bucket/path pair. -/
def findObj (l : List StorageObj) (bucket path : String) : Option StorageObj :=
  l.find? (fun o => o.bucket == bucket && o.path == path)

/-- supabase.storage.from(bucket).upload(path, content, upsert:false):
fails if an object already exists at the path, or on transport failure;
otherwise appends the object. -/
def uploadObject (env : Env) (bucket path content : String) (s : RunState) :
    Except Err Unit × RunState :=
  if (findObj s.storage bucket path).isSome then
    (.error (.duplicateObject bucket path), s)
  else if env.uploadFails bucket path then
    (.error (.storageFailure bucket path), s)
  else
    (.ok (), { s with storage := s.storage ++ [{ bucket := bucket, path := path, content := content }] })

/-- supabase.storage.from(bucket).getPublicUrl(path): a pure function of
bucket and path. -/
def getPublicUrl (bucket path : String) : String :=
  "public/" ++ bucket ++ "/" ++ path

/-- supabase.from(testphoto).insert(row): fails per the environment,
otherwise appends the row. -/
def insertPhotoRow (env : Env) (r : TestphotoRow) (s : RunState) :
    Except Err Unit × RunState :=
  if env.insertPhotoRowFails r then (.error .recordFailure, s)
  else (.ok (), addRecord s (.photoRow r))

/-- supabase.from(face_embeddings).insert(row): fails per the
environment, otherwise appends the row. -/
def insertEmbedRow (env : Env) (r : EmbeddingRow) (s : RunState) :
    Except Err Unit × RunState :=
  if env.insertEmbedRowFails r then (.error .recordFailure, s)
  else (.ok (), addRecord s (.embedRow r))

/-- detectFace: if the face API was not initialized, allow all photos;
otherwise POST /detect-faces and return has_faces, returning true (fail
open) when the fetch throws or the response status is not ok. -/
def detectFace (env : Env) (_photo : Photo) (s : RunState) : Bool × RunState :=
  if !env.faceApiInitialized then (true, s)
  else
    let s := logCall s .detectFaces
    match env.detectResp with
    | .netFail => (true, s)
    | .resp ok body => if !ok then (true, s) else (body.has_faces, s)

/-- The temporary person id minted per face crop:
temp_person_(Date.now())_(face_id). -/
def tempPersonIdFor (now faceId : Nat) : String :=
  "temp_person_" ++ Nat.repr now ++ "_" ++ Nat.repr faceId

/-- The storage path of a face crop:
(tempPersonId)/(photoRequestId)_face_(face_id).jpg. -/
def cropFileNameFor (now : Nat) (photoRequestId : String) (faceId : Nat) : String :=
  tempPersonIdFor now faceId ++ "/" ++ photoRequestId ++ "_face_" ++ Nat.repr faceId ++ ".jpg"

/-- The testphoto row written for one face crop. -/
def cropRowFor (env : Env) (photoRequestId : String) (c : FaceCropData) : TestphotoRow :=
  { image_url := getPublicUrl "face_crops" (cropFileNameFor env.now photoRequestId c.face_id)
    status := "face_crop"
    created_at := env.now
    metadata := some
      { photo_request_id := photoRequestId
        face_id := c.face_id
        temp_person_id := tempPersonIdFor env.now c.face_id
        bounding_box := c.bounding_box
        crop_coordinates := c.crop_coordinates } }

/-- The face_embeddings row written for one successful embedding. -/
def embedRowFor (tempPersonId faceCropUrl : String) (body : EmbedBody) : EmbeddingRow :=
  { face_crop_url := faceCropUrl
    embedding := toString body.embedding
    confidence := body.confidence
    temp_person_id := tempPersonId
    is_processed := false }

/-- generateAndStoreEmbedding: POST /generate-embedding for one crop and
insert a face_embeddings row on logical success; every failure (network,
status, success=false, insert error) is caught and swallowed so the face
crop record is kept. -/
def generateAndStoreEmbedding (env : Env) (faceImageBase64 tempPersonId faceCropUrl : String)
    (s : RunState) : RunState :=
  let s := logCall s .generateEmbedding
  match env.embedResp faceImageBase64 with
  | .netFail => s
  | .resp ok body =>
    if !ok then s
    else if !body.success then s
    else (insertEmbedRow env (embedRowFor tempPersonId faceCropUrl body) s).2

/-- storeFaceCrops: sequentially, for each crop: mint the temp person id,
upload the crop to the face_crops bucket (upsert:false), insert its
testphoto row with status face_crop, then attempt the embedding.  An
upload or insert error is rethrown, aborting the remaining crops. -/
def storeFaceCrops (env : Env) (faceCrops : List FaceCropData) (photoRequestId : String)
    (s : RunState) : Except Err Unit × RunState :=
  match faceCrops with
  | [] => (.ok (), s)
  | faceCrop :: rest =>
    let tempPersonId := tempPersonIdFor env.now faceCrop.face_id
    let cropFileName := cropFileNameFor env.now photoRequestId faceCrop.face_id
    match uploadObject env "face_crops" cropFileName faceCrop.face_crop_base64 s with
    | (.error e, s) => (.error e, s)
    | (.ok _, s) =>
      let cropUrl := getPublicUrl "face_crops" cropFileName
      match insertPhotoRow env (cropRowFor env photoRequestId faceCrop) s with
      | (.error e, s) => (.error e, s)
      | (.ok _, s) =>
        let s := generateAndStoreEmbedding env faceCrop.face_crop_base64 tempPersonId cropUrl s
        storeFaceCrops env rest photoRequestId s

/-- The Phase 1 fallback of processPhotoWithFace when POST /crop-faces
answers with a non-ok status: POST /process-faces for bounding boxes
only; any failure there is caught by the surrounding catch, which
returns the original photo. -/
def annotateOnly (env : Env) (photo : Photo) (s : RunState) : Photo × RunState :=
  let s := logCall s .processFaces
  match env.processResp with
  | .netFail => (photo, s)
  | .resp ok result =>
    if !ok then (photo, s)
    else if !result.has_faces then (photo, s)
    else
      let processedBuffer := result.processed_image
      ({ photo with buffer := processedBuffer, size := processedBuffer.length }, s)

/-- The tail of the main path of processPhotoWithFace after the face
crops were stored: POST /process-faces for bounding boxes and return the
photo with the processed image; any failure there is caught by the
surrounding catch, which returns the original photo. -/
def mainPathTail (env : Env) (photo : Photo) (s : RunState) : Photo × RunState :=
  let s := logCall s .processFaces
  match env.processResp with
  | .netFail => (photo, s)
  | .resp pok result =>
    if !pok then (photo, s)
    else
      let processedBuffer := result.processed_image
      ({ photo with buffer := processedBuffer, size := processedBuffer.length }, s)

/-- processPhotoWithFace: return the original when the face API is not
initialized; otherwise POST /crop-faces; on non-ok status fall back to
the Phase 1 annotate-only path; on has_faces=false return the original;
otherwise store the face crops, then POST /process-faces and return the
photo with the processed image.  Every thrown error is caught by the
surrounding catch, which returns the original photo. -/
def processPhotoWithFace (env : Env) (photo : Photo) (s : RunState) : Photo × RunState :=
  if !env.faceApiInitialized then (photo, s)
  else
    let s := logCall s .cropFaces
    match env.cropResp with
    | .netFail => (photo, s)
    | .resp ok cropResult =>
      if !ok then annotateOnly env photo s
      else if !cropResult.has_faces then (photo, s)
      else
        match storeFaceCrops env cropResult.face_crops photo.requestId s with
        | (.error _, s) => (photo, s)
        | (.ok _, s) => mainPathTail env photo s

/-- The storage path of the full photo:
(userId)/(requestId)_(timestamp).jpg — a deterministic function of the
user id, the request id and the capture timestamp. -/
def photoFileName (userId : String) (photo : Photo) : String :=
  userId ++ "/" ++ photo.requestId ++ "_" ++ Nat.repr photo.timestamp ++ ".jpg"

/-- The testphoto row written for the full uploaded photo. -/
def uploadedRowFor (env : Env) (userId : String) (photo : Photo) : TestphotoRow :=
  { image_url := getPublicUrl "testphoto" (photoFileName userId photo)
    status := "uploaded"
    created_at := env.now
    metadata := none }

/-- The storage object uploaded for the full photo. -/
def uploadedObjFor (userId : String) (photo : Photo) : StorageObj :=
  { bucket := "testphoto"
    path := photoFileName userId photo
    content := photo.buffer }

/-- uploadPhotoAndCreateEncounter: upload the photo bytes to the
testphoto bucket (upsert:false) and insert the status=uploaded row;
either failure is rethrown to the caller. -/
def uploadPhotoAndCreateEncounter (env : Env) (photo : Photo) (userId : String)
    (s : RunState) : Except Err Unit × RunState :=
  match uploadObject env "testphoto" (photoFileName userId photo) photo.buffer s with
  | (.error e, s) => (.error e, s)
  | (.ok _, s) =>
    match insertPhotoRow env (uploadedRowFor env userId photo) s with
    | (.error e, s) => (.error e, s)
    | (.ok _, s) => (.ok (), s)

/-- The button-press handler of onSession: show the taking-photo wall,
append the captured photo to the in-memory registry, run face detection;
on no face show the discard wall and stop; otherwise process the photo,
upload it with its encounter row (sendPhotoToEndpoint only logs), and
show the success wall; any uncaught error yields the error wall. -/
def onButtonPress (env : Env) (photo : Photo) (userId : String)
    (photos : List Photo) (s : RunState) : List Photo × RunState :=
  let s := showTextWall s "Taking photo..."
  let photos := photos ++ [photo]
  let r := detectFace env photo s
  if !r.1 then
    (photos, showTextWall r.2 "No face detected - photo not saved")
  else
    let p := processPhotoWithFace env photo r.2
    match uploadPhotoAndCreateEncounter env p.1 userId p.2 with
    | (.error _, s) => (photos, showTextWall s "Error taking photo")
    | (.ok _, s) => (photos, showTextWall s "Photo sent successfully!")

/-- The GET /photos/:requestId route: the first registry photo with the
requested id, or a not-found signal. -/
def getPhotoById (photos : List Photo) (requestId : String) : Option Photo :=
  photos.find? (fun p => p.requestId == requestId)

/-- A testphoto row write with status face_crop. -/
def isFaceCropRecord : DbRecord → Bool
  | .photoRow r => r.status == "face_crop"
  | .embedRow _ => false

/-- A testphoto row write with status uploaded. -/
def isUploadedRecord : DbRecord → Bool
  | .photoRow r => r.status == "uploaded"
  | .embedRow _ => false

/-- A face_embeddings row write. -/
def isEmbedRecord : DbRecord → Bool
  | .photoRow _ => false
  | .embedRow _ => true

/-- The storage object uploaded for one face crop. -/
def cropObjFor (env : Env) (photoRequestId : String) (c : FaceCropData) : StorageObj :=
  { bucket := "face_crops"
    path := cropFileNameFor env.now photoRequestId c.face_id
    content := c.face_crop_base64 }

/-- Decimal digit characters of a natural number, big endian; the
reference rendering used to reason about Nat.repr. -/
def decDigits (n : Nat) : List Char :=
  if n = 0 then ['0'] else ((Nat.digits 10 n).map Nat.digitChar).reverse

/-- State s' extends state s by face-crop pipeline effects only: no text
walls, only face_crop or embedding rows appended, only face_crops-bucket
objects appended. -/
def onlyCropEffects (s s' : RunState) : Prop :=
  s'.messages = s.messages ∧
  (∃ t, s'.records = s.records ++ t ∧
    ∀ x ∈ t, isFaceCropRecord x = true ∨ isEmbedRecord x = true) ∧
  (∃ u, s'.storage = s.storage ++ u ∧ ∀ o ∈ u, o.bucket = "face_crops")

/-- Two run states that agree on everything except face_embeddings rows. -/
def StateAgree (s1 s2 : RunState) : Prop :=
  s1.storage = s2.storage ∧ s1.calls = s2.calls ∧ s1.messages = s2.messages ∧
  s1.records.filter (fun r => !isEmbedRecord r) = s2.records.filter (fun r => !isEmbedRecord r)

/-- Two environments that agree on everything except the embedding
service responses and the failure behaviour of face_embeddings inserts. -/
def embedAgnostic (e1 e2 : Env) : Prop :=
  e1.faceApiInitialized = e2.faceApiInitialized ∧ e1.detectResp = e2.detectResp ∧
  e1.cropResp = e2.cropResp ∧ e1.processResp = e2.processResp ∧
  e1.uploadFails = e2.uploadFails ∧ e1.insertPhotoRowFails = e2.insertPhotoRowFails ∧
  e1.now = e2.now

/-- The run state right after the taking-photo wall and face detection. -/
def detState (env : Env) (photo : Photo) (s : RunState) : RunState :=
  (detectFace env photo (showTextWall s "Taking photo...")).2

/-- The photo and state produced by processPhotoWithFace inside one
button-press run. -/
def procResult (env : Env) (photo : Photo) (s : RunState) : Photo × RunState :=
  processPhotoWithFace env photo (detState env photo s)

/-- The result of the final full-photo upload attempt of one
button-press run. -/
def finalUpload (env : Env) (photo : Photo) (userId : String) (s : RunState) :
    Except Err Unit × RunState :=
  uploadPhotoAndCreateEncounter env (procResult env photo s).1 userId
    (procResult env photo s).2

/-- A concrete captured photo used by the concrete-input theorems. -/
def photoA : Photo :=
  { requestId := "req1", timestamp := 111, buffer := "rawbytes",
    mimeType := "image/jpeg", filename := "photo.jpg", size := 8 }

/-- A first concrete face crop. -/
def cropA : FaceCropData :=
  { face_id := 1, face_crop_base64 := "cropbytes1", bounding_box := "bb1",
    crop_coordinates := "cc1" }

/-- A second concrete face crop with a different local face id. -/
def cropB : FaceCropData :=
  { face_id := 2, face_crop_base64 := "cropbytes2", bounding_box := "bb2",
    crop_coordinates := "cc2" }

/-- The empty run state. -/
def s0 : RunState := { storage := [], records := [], calls := [], messages := [] }

/-- A baseline environment in which every remote call succeeds and no
upload or insert fails; concrete-input theorems derive variants of it. -/
def envBase : Env :=
  { faceApiInitialized := true
    detectResp := .resp true { has_faces := true, faces_detected := 1 }
    cropResp := .resp true { has_faces := true, faces_detected := 1, face_crops := [cropA] }
    processResp := .resp true
      { has_faces := true, faces_detected := 1, processed_image := "annotated" }
    embedResp := fun _ => .resp true
      { success := true, embedding := [1, 2], confidence := 9, error := "" }
    uploadFails := fun _ _ => false
    insertPhotoRowFails := fun _ => false
    insertEmbedRowFails := fun _ => false
    now := 7 }

/-- Environment where detect succeeds and reports no faces. -/
def envC1 : Env :=
  { envBase with detectResp := .resp true { has_faces := false, faces_detected := 0 } }

/-- Environment where every face_crops-bucket upload fails. -/
def envC3 : Env :=
  { envBase with uploadFails := fun b _ => b == "face_crops" }

/-- Environment where the crop-faces call is unreachable at transport
level while everything else works. -/
def envC6 : Env := { envBase with cropResp := .netFail }

/-- Environment where the crop-faces call answers with a non-ok HTTP
status while everything else works. -/
def envCropHttpErr : Env :=
  { envBase with
    cropResp := .resp false { has_faces := false, faces_detected := 0, face_crops := [] } }

/-- Environment where crop-faces succeeds but reports no faces. -/
def envC7 : Env :=
  { envBase with
    cropResp := .resp true { has_faces := false, faces_detected := 0, face_crops := [] } }

/-- Environment with the analysis capability unavailable at startup. -/
def envUnavail : Env := { envBase with faceApiInitialized := false }

/-- Environment where the embedding service is unreachable. -/
def envNoEmbed : Env := { envBase with embedResp := fun _ => .netFail }

/-- Environment where every testphoto-bucket upload fails. -/
def envC10 : Env :=
  { envBase with faceApiInitialized := false, uploadFails := fun b _ => b == "testphoto" }

/-- Environment with two crops in the crop response. -/
def envTwoCrops : Env :=
  { envBase with
    cropResp := .resp true
      { has_faces := true, faces_detected := 2, face_crops := [cropA, cropB] } }

/-- A run state left by a first pipeline run that already uploaded the
full photo of photoA for user1. -/
def sPrev : RunState :=
  { storage := [uploadedObjFor "user1" photoA], records := [], calls := [], messages := [] }

end MentraPhoto

namespace MentraPhoto

theorem toDigitsCore_eq_decDigits (f : Nat) :
    ∀ (n : Nat) (l : List Char), n < f →
      Nat.toDigitsCore 10 f n l = decDigits n ++ l := by
  induction f with
  | zero => intro n l h; exact absurd h (Nat.not_lt_zero n)
  | succ f ih =>
    intro n l h
    have hunf : Nat.toDigitsCore 10 (f+1) n l =
        (if n / 10 = 0 then Nat.digitChar (n % 10) :: l
         else Nat.toDigitsCore 10 f (n / 10) (Nat.digitChar (n % 10) :: l)) := by
      simp [Nat.toDigitsCore]
    rw [hunf]
    by_cases h10 : n / 10 = 0
    · rw [if_pos h10]
      have hn10 : n < 10 := by omega
      by_cases hn0 : n = 0
      · subst hn0
        have hz : Nat.digitChar (0 % 10) = '0' := by decide
        simp [decDigits, hz]
      · have hdig : Nat.digits 10 n = [n % 10] := by
          rw [Nat.digits_def' (by norm_num : (1:Nat) < 10) (Nat.pos_of_ne_zero hn0), h10]
          simp
        simp [decDigits, hn0, hdig]
    · rw [if_neg h10]
      have hnpos : 0 < n := by omega
      have hlt : n / 10 < f :=
        lt_of_lt_of_le (Nat.div_lt_self hnpos (by norm_num)) (Nat.lt_succ_iff.mp h)
      rw [ih (n / 10) (Nat.digitChar (n % 10) :: l) hlt]
      have hdig : Nat.digits 10 n = n % 10 :: Nat.digits 10 (n / 10) :=
        Nat.digits_def' (by norm_num : (1:Nat) < 10) hnpos
      have hne : n ≠ 0 := Nat.pos_iff_ne_zero.mp hnpos
      simp [decDigits, hne, h10, hdig]

theorem toDigits_eq_decDigits (n : Nat) : Nat.toDigits 10 n = decDigits n := by
  have h := toDigitsCore_eq_decDigits (n + 1) n [] (Nat.lt_succ_self n)
  simpa [Nat.toDigits] using h

theorem repr_eq_decDigits (n : Nat) : Nat.repr n = (decDigits n).asString := by
  rw [show Nat.repr n = (Nat.toDigits 10 n).asString from rfl, toDigits_eq_decDigits]

theorem asString_inj (l m : List Char) (h : l.asString = m.asString) : l = m := by
  simpa [List.asString] using congrArg String.data h

theorem map_digitChar_inj : ∀ (l1 l2 : List Nat), (∀ x ∈ l1, x < 10) → (∀ x ∈ l2, x < 10) →
    l1.map Nat.digitChar = l2.map Nat.digitChar → l1 = l2 := by
  intro l1
  induction l1 with
  | nil => intro l2 _ _ h; cases l2 with
    | nil => rfl
    | cons b bs => simp at h
  | cons a as ih =>
    intro l2 h1 h2 h
    cases l2 with
    | nil => simp at h
    | cons b bs =>
      simp only [List.map_cons, List.cons.injEq] at h
      have hab : a = b := by
        have ha := h1 a (List.mem_cons_self a as)
        have hb := h2 b (List.mem_cons_self b bs)
        exact (by decide :
          ∀ x : Nat, x < 10 → ∀ y : Nat, y < 10 → Nat.digitChar x = Nat.digitChar y → x = y)
          a ha b hb h.1
      have htl : as = bs := ih bs (fun x hx => h1 x (List.mem_cons_of_mem a hx))
        (fun x hx => h2 x (List.mem_cons_of_mem b hx)) h.2
      rw [hab, htl]

theorem decDigits_ne_zero (b : Nat) (hb : b ≠ 0) : decDigits b ≠ ['0'] := by
  intro h
  have hb' : decDigits b = ((Nat.digits 10 b).map Nat.digitChar).reverse := by
    simp [decDigits, hb]
  rw [hb'] at h
  have hmap : (Nat.digits 10 b).map Nat.digitChar = ['0'] := by
    have hr := congrArg List.reverse h
    simpa using hr
  have hb0 : Nat.digits 10 b = [0] := by
    apply map_digitChar_inj _ [0]
    · intro x hx; exact Nat.digits_lt_base (by norm_num) hx
    · intro x hx; simp at hx; omega
    · rw [hmap]; decide
  have hofd := Nat.ofDigits_digits 10 b
  rw [hb0] at hofd
  simp [Nat.ofDigits] at hofd
  exact hb hofd.symm

theorem decDigits_inj (a b : Nat) (h : decDigits a = decDigits b) : a = b := by
  by_cases ha : a = 0 <;> by_cases hb : b = 0
  · omega
  · exfalso
    apply decDigits_ne_zero b hb
    rw [← h, ha]
    simp [decDigits]
  · exfalso
    apply decDigits_ne_zero a ha
    rw [h, hb]
    simp [decDigits]
  · have ha' : decDigits a = ((Nat.digits 10 a).map Nat.digitChar).reverse := by
      simp [decDigits, ha]
    have hb' : decDigits b = ((Nat.digits 10 b).map Nat.digitChar).reverse := by
      simp [decDigits, hb]
    rw [ha', hb'] at h
    have hmap : (Nat.digits 10 a).map Nat.digitChar = (Nat.digits 10 b).map Nat.digitChar := by
      have hr := congrArg List.reverse h
      simpa using hr
    have hdig : Nat.digits 10 a = Nat.digits 10 b := by
      apply map_digitChar_inj
      · intro x hx; exact Nat.digits_lt_base (by norm_num) hx
      · intro x hx; exact Nat.digits_lt_base (by norm_num) hx
      · exact hmap
    have h1 := Nat.ofDigits_digits 10 a
    have h2 := Nat.ofDigits_digits 10 b
    rw [← h1, ← h2, hdig]

theorem nat_repr_inj (a b : Nat) (h : Nat.repr a = Nat.repr b) : a = b := by
  apply decDigits_inj
  apply asString_inj
  rw [← repr_eq_decDigits, ← repr_eq_decDigits]
  exact h

theorem string_append_left_cancel (p a b : String) (h : p ++ a = p ++ b) : a = b := by
  apply String.ext
  have hd := congrArg String.data h
  rw [String.data_append, String.data_append] at hd
  exact List.append_cancel_left hd

theorem tempPersonIdFor_inj (now a b : Nat)
    (h : tempPersonIdFor now a = tempPersonIdFor now b) : a = b := by
  apply nat_repr_inj
  unfold tempPersonIdFor at h
  exact string_append_left_cancel ("temp_person_" ++ Nat.repr now ++ "_") _ _ h

theorem repr_data_no_slash (n : Nat) : ∀ c ∈ (Nat.repr n).data, (!(c == '/')) = true := by
  intro c hc
  rw [repr_eq_decDigits] at hc
  have hc' : c ∈ decDigits n := by simpa [List.asString] using hc
  unfold decDigits at hc'
  by_cases hn : n = 0
  · simp [hn] at hc'
    rw [hc']
    decide
  · simp [hn] at hc'
    rcases hc' with ⟨d, hd, hdc⟩
    have hdlt : d < 10 := Nat.digits_lt_base (by norm_num) hd
    rw [← hdc]
    exact (by decide : ∀ x : Nat, x < 10 → (!(Nat.digitChar x == '/')) = true) d hdlt

theorem cropFileNameFor_inj (now : Nat) (rid : String) (a b : Nat)
    (h : cropFileNameFor now rid a = cropFileNameFor now rid b) : a = b := by
  apply nat_repr_inj
  have hd := congrArg String.data h
  unfold cropFileNameFor tempPersonIdFor at hd
  simp only [String.data_append, List.append_assoc] at hd
  have hfull : "temp_person_".data ++ ((Nat.repr now).data ++ ("_".data ++
        ((Nat.repr a).data ++ ("/".data ++ (rid.data ++ ("_face_".data ++
          ((Nat.repr a).data ++ ".jpg".data))))))) =
      "temp_person_".data ++ ((Nat.repr now).data ++ ("_".data ++
        ((Nat.repr b).data ++ ("/".data ++ (rid.data ++ ("_face_".data ++
          ((Nat.repr b).data ++ ".jpg".data))))))) := hd
  have h1 := List.append_cancel_left hfull
  have h2 := List.append_cancel_left h1
  have h3 := List.append_cancel_left h2
  have htw := congrArg (List.takeWhile (fun c => !(c == '/'))) h3
  rw [List.takeWhile_append_of_pos (repr_data_no_slash a),
      List.takeWhile_append_of_pos (repr_data_no_slash b)] at htw
  have hhead : ∀ (m : Nat),
      (("/".data ++ (rid.data ++ ("_face_".data ++ ((Nat.repr m).data ++
        ".jpg".data))))).takeWhile (fun c => !(c == '/')) = [] := by
    intro m
    have hshape : "/".data ++ (rid.data ++ ("_face_".data ++ ((Nat.repr m).data ++
        ".jpg".data))) = '/' :: (rid.data ++ ("_face_".data ++ ((Nat.repr m).data ++
        ".jpg".data))) := rfl
    rw [hshape]
    simp [List.takeWhile_cons]
  rw [hhead a, hhead b] at htw
  apply String.ext
  simpa using htw

theorem onlyCropEffects_of_parts (s s' : RunState)
    (hm : s'.messages = s.messages)
    (t : List DbRecord) (ht : s'.records = s.records ++ t)
    (htp : ∀ x ∈ t, isFaceCropRecord x = true ∨ isEmbedRecord x = true)
    (u : List StorageObj) (hu : s'.storage = s.storage ++ u)
    (hup : ∀ o ∈ u, o.bucket = "face_crops") :
    onlyCropEffects s s' := ⟨hm, ⟨t, ht, htp⟩, ⟨u, hu, hup⟩⟩

theorem onlyCropEffects_refl (s : RunState) : onlyCropEffects s s :=
  onlyCropEffects_of_parts s s rfl [] (by simp) (by simp) [] (by simp) (by simp)

theorem onlyCropEffects_trans (s1 s2 s3 : RunState)
    (h1 : onlyCropEffects s1 s2) (h2 : onlyCropEffects s2 s3) : onlyCropEffects s1 s3 := by
  obtain ⟨hm1, ⟨t1, ht1, ht1p⟩, ⟨u1, hu1, hu1p⟩⟩ := h1
  obtain ⟨hm2, ⟨t2, ht2, ht2p⟩, ⟨u2, hu2, hu2p⟩⟩ := h2
  refine onlyCropEffects_of_parts s1 s3 (hm2.trans hm1) (t1 ++ t2) ?_ ?_ (u1 ++ u2) ?_ ?_
  · rw [ht2, ht1, List.append_assoc]
  · intro x hx
    rcases List.mem_append.mp hx with h | h
    · exact ht1p x h
    · exact ht2p x h
  · rw [hu2, hu1, List.append_assoc]
  · intro o ho
    rcases List.mem_append.mp ho with h | h
    · exact hu1p o h
    · exact hu2p o h

theorem onlyCropEffects_logCall (s : RunState) (c : ServiceCall) :
    onlyCropEffects s (logCall s c) :=
  onlyCropEffects_of_parts s _ rfl [] (by simp [logCall]) (by simp) [] (by simp [logCall]) (by simp)

theorem generateAndStoreEmbedding_netFail (env : Env) (b64 tpid url : String) (s : RunState)
    (h : env.embedResp b64 = .netFail) :
    generateAndStoreEmbedding env b64 tpid url s = logCall s .generateEmbedding := by
  unfold generateAndStoreEmbedding
  rw [h]

theorem generateAndStoreEmbedding_resp (env : Env) (b64 tpid url : String) (s : RunState)
    (ok : Bool) (body : EmbedBody) (h : env.embedResp b64 = .resp ok body) :
    generateAndStoreEmbedding env b64 tpid url s =
      (if (!ok) = true then logCall s .generateEmbedding
       else if (!body.success) = true then logCall s .generateEmbedding
       else (insertEmbedRow env (embedRowFor tpid url body)
              (logCall s .generateEmbedding)).2) := by
  unfold generateAndStoreEmbedding
  rw [h]

theorem generateAndStoreEmbedding_cases (env : Env) (b64 tpid url : String) (s : RunState) :
    generateAndStoreEmbedding env b64 tpid url s = logCall s .generateEmbedding ∨
    ∃ r, generateAndStoreEmbedding env b64 tpid url s =
      addRecord (logCall s .generateEmbedding) (.embedRow r) := by
  rcases henv : env.embedResp b64 with _ | ⟨ok, body⟩
  · exact Or.inl (generateAndStoreEmbedding_netFail env b64 tpid url s henv)
  · rw [generateAndStoreEmbedding_resp env b64 tpid url s ok body henv]
    cases ok with
    | false => exact Or.inl (by simp)
    | true =>
      cases hs : body.success with
      | false => exact Or.inl (by simp [hs])
      | true =>
        simp only [hs, Bool.not_true, Bool.not_false, if_false]
        unfold insertEmbedRow
        by_cases hfail : env.insertEmbedRowFails (embedRowFor tpid url body)
        · rw [if_pos hfail]
          exact Or.inl rfl
        · rw [if_neg hfail]
          exact Or.inr ⟨embedRowFor tpid url body, rfl⟩

theorem onlyCropEffects_embed (env : Env) (b64 tpid url : String) (s : RunState) :
    onlyCropEffects s (generateAndStoreEmbedding env b64 tpid url s) := by
  rcases generateAndStoreEmbedding_cases env b64 tpid url s with h | ⟨r, h⟩
  · rw [h]; exact onlyCropEffects_logCall s _
  · rw [h]
    exact onlyCropEffects_of_parts s _ rfl [.embedRow r] (by simp [addRecord, logCall])
      (by simp [isEmbedRecord]) [] (by simp [addRecord, logCall]) (by simp)

theorem uploadObject_state (env : Env) (b p c : String) (s : RunState) :
    ((∃ e, (uploadObject env b p c s).1 = .error e) ∧ (uploadObject env b p c s).2 = s) ∨
    ((uploadObject env b p c s).1 = .ok () ∧
     (uploadObject env b p c s).2 =
       { s with storage := s.storage ++ [{ bucket := b, path := p, content := c }] }) := by
  unfold uploadObject
  by_cases h1 : (findObj s.storage b p).isSome
  · left; simp [h1]
  · by_cases h2 : env.uploadFails b p
    · left; simp [h1, h2]
    · right; simp [h1, h2]

theorem uploadObject_error_state (env : Env) (b p c : String) (s : RunState) (e : Err)
    (h : (uploadObject env b p c s).1 = .error e) : (uploadObject env b p c s).2 = s := by
  rcases uploadObject_state env b p c s with ⟨_, h'⟩ | ⟨hok, _⟩
  · exact h'
  · rw [hok] at h
    exact absurd h (by simp)

theorem uploadObject_ok_state (env : Env) (b p c : String) (s : RunState)
    (h : (uploadObject env b p c s).1 = .ok ()) :
    (uploadObject env b p c s).2 =
      { s with storage := s.storage ++ [{ bucket := b, path := p, content := c }] } := by
  rcases uploadObject_state env b p c s with ⟨⟨e, he⟩, _⟩ | ⟨_, h2⟩
  · rw [h] at he
    exact absurd he (by simp)
  · exact h2

theorem insertPhotoRow_state (env : Env) (r : TestphotoRow) (s : RunState) :
    ((insertPhotoRow env r s).1 = .error .recordFailure ∧ (insertPhotoRow env r s).2 = s) ∨
    ((insertPhotoRow env r s).1 = .ok () ∧
     (insertPhotoRow env r s).2 = addRecord s (.photoRow r)) := by
  unfold insertPhotoRow
  by_cases h : env.insertPhotoRowFails r
  · left; simp [h]
  · right; simp [h]

theorem insertPhotoRow_error_state (env : Env) (r : TestphotoRow) (s : RunState) (e : Err)
    (h : (insertPhotoRow env r s).1 = .error e) : (insertPhotoRow env r s).2 = s := by
  rcases insertPhotoRow_state env r s with ⟨_, h'⟩ | ⟨hok, _⟩
  · exact h'
  · rw [hok] at h
    exact absurd h (by simp)

theorem storeFaceCrops_effects (env : Env) (crops : List FaceCropData) (rid : String) :
    ∀ s : RunState, onlyCropEffects s (storeFaceCrops env crops rid s).2 := by
  induction crops with
  | nil => intro s; exact onlyCropEffects_refl s
  | cons c rest ih =>
    intro s
    simp only [storeFaceCrops]
    rcases hup : uploadObject env "face_crops" (cropFileNameFor env.now rid c.face_id)
      c.face_crop_base64 s with ⟨res, s1⟩
    cases res with
    | error e =>
      have hs1 : s1 = s := by
        have h' := uploadObject_error_state env "face_crops"
          (cropFileNameFor env.now rid c.face_id) c.face_crop_base64 s e (by rw [hup])
        rw [hup] at h'
        exact h'
      have hgoal : onlyCropEffects s s1 := hs1 ▸ onlyCropEffects_refl s
      exact hgoal
    | ok u =>
      cases u
      have hupOk : onlyCropEffects s s1 := by
        have h2 := uploadObject_ok_state env "face_crops"
          (cropFileNameFor env.now rid c.face_id) c.face_crop_base64 s (by rw [hup])
        rw [hup] at h2
        simp only at h2
        rw [h2]
        exact onlyCropEffects_of_parts s _ rfl [] (by simp) (by simp)
          [{ bucket := "face_crops", path := cropFileNameFor env.now rid c.face_id,
             content := c.face_crop_base64 }] (by simp) (by simp)
      rcases hins : insertPhotoRow env (cropRowFor env rid c) s1 with ⟨res2, s2⟩
      simp only [hins]
      cases res2 with
      | error e =>
        have hs2 : s2 = s1 := by
          have h' := insertPhotoRow_error_state env (cropRowFor env rid c) s1 e (by rw [hins])
          rw [hins] at h'
          exact h'
        have hgoal : onlyCropEffects s s1 := hupOk
        rw [← hs2] at hgoal
        exact hgoal
      | ok u2 =>
        cases u2
        have hinsOk : onlyCropEffects s1 s2 := by
          rcases insertPhotoRow_state env (cropRowFor env rid c) s1 with ⟨hbad, _⟩ | ⟨_, h2⟩
          · rw [hins] at hbad
            exact absurd hbad (by simp)
          · rw [hins] at h2
            simp only at h2
            rw [h2]
            exact onlyCropEffects_of_parts s1 _ rfl [.photoRow (cropRowFor env rid c)]
              (by simp [addRecord]) (by simp [isFaceCropRecord, cropRowFor]) []
              (by simp [addRecord]) (by simp)
        have hemb : onlyCropEffects s2
            (generateAndStoreEmbedding env c.face_crop_base64
              (tempPersonIdFor env.now c.face_id)
              (getPublicUrl "face_crops" (cropFileNameFor env.now rid c.face_id)) s2) :=
          onlyCropEffects_embed env _ _ _ s2
        have hrest := ih (generateAndStoreEmbedding env c.face_crop_base64
          (tempPersonIdFor env.now c.face_id)
          (getPublicUrl "face_crops" (cropFileNameFor env.now rid c.face_id)) s2)
        exact onlyCropEffects_trans s s1 _ hupOk
          (onlyCropEffects_trans s1 s2 _ hinsOk
            (onlyCropEffects_trans s2 _ _ hemb hrest))

theorem findObj_none_of_bucket_ne (u : List StorageObj) (b p : String)
    (h : ∀ o ∈ u, o.bucket ≠ b) : findObj u b p = none := by
  induction u with
  | nil => rfl
  | cons o rest ih =>
    have hne : (o.bucket == b) = false :=
      beq_eq_false_iff_ne.mpr (h o (List.mem_cons_self o rest))
    unfold findObj at ih ⊢
    rw [List.find?_cons]
    simp only [hne, Bool.false_and]
    exact ih (fun x hx => h x (List.mem_cons_of_mem o hx))

theorem findObj_append_other (l u : List StorageObj) (b p : String)
    (h : ∀ o ∈ u, o.bucket ≠ b) : findObj (l ++ u) b p = findObj l b p := by
  unfold findObj
  rw [List.find?_append]
  have h2 : findObj u b p = none := findObj_none_of_bucket_ne u b p h
  unfold findObj at h2
  rw [h2]
  cases List.find? (fun o => o.bucket == b && o.path == p) l <;> rfl

theorem onlyCropEffects_findObj_testphoto (s s' : RunState) (h : onlyCropEffects s s')
    (p : String) : findObj s'.storage "testphoto" p = findObj s.storage "testphoto" p := by
  obtain ⟨_, _, ⟨u, hu, hup⟩⟩ := h
  rw [hu]
  apply findObj_append_other
  intro o ho
  rw [hup o ho]
  decide

theorem isUploadedRecord_false_of_crop_or_embed (x : DbRecord)
    (h : isFaceCropRecord x = true ∨ isEmbedRecord x = true) :
    isUploadedRecord x = false := by
  rcases h with h | h
  · cases x with
    | photoRow r =>
      have hst : r.status = "face_crop" := eq_of_beq h
      show (r.status == "uploaded") = false
      rw [hst]
      decide
    | embedRow r => rfl
  · cases x with
    | photoRow r => exact absurd h (by simp [isEmbedRecord])
    | embedRow r => rfl

theorem filter_uploaded_nil_of_crop_or_embed (t : List DbRecord)
    (htp : ∀ x ∈ t, isFaceCropRecord x = true ∨ isEmbedRecord x = true) :
    t.filter isUploadedRecord = [] := by
  induction t with
  | nil => rfl
  | cons x rest ih =>
    have hnx : isUploadedRecord x = false :=
      isUploadedRecord_false_of_crop_or_embed x (htp x (List.mem_cons_self x rest))
    rw [List.filter_cons]
    simp only [hnx, Bool.false_eq_true, if_false]
    exact ih (fun y hy => htp y (List.mem_cons_of_mem x hy))

theorem onlyCropEffects_filter_uploaded (s s' : RunState) (h : onlyCropEffects s s') :
    s'.records.filter isUploadedRecord = s.records.filter isUploadedRecord := by
  obtain ⟨_, ⟨t, ht, htp⟩, _⟩ := h
  rw [ht, List.filter_append, filter_uploaded_nil_of_crop_or_embed t htp, List.append_nil]

theorem annotateOnly_state (env : Env) (photo : Photo) (s : RunState) :
    (annotateOnly env photo s).2 = logCall s .processFaces := by
  unfold annotateOnly
  rcases henv : env.processResp with _ | ⟨ok, ⟨hf, fd, pi⟩⟩
  · rfl
  · cases ok <;> cases hf <;> rfl

theorem annotateOnly_fields (env : Env) (photo : Photo) (s : RunState) :
    (annotateOnly env photo s).1.requestId = photo.requestId ∧
    (annotateOnly env photo s).1.timestamp = photo.timestamp ∧
    (annotateOnly env photo s).1.mimeType = photo.mimeType := by
  unfold annotateOnly
  rcases henv : env.processResp with _ | ⟨ok, ⟨hf, fd, pi⟩⟩
  · exact ⟨rfl, rfl, rfl⟩
  · cases ok <;> cases hf <;> exact ⟨rfl, rfl, rfl⟩

theorem mainPathTail_state (env : Env) (photo : Photo) (s : RunState) :
    (mainPathTail env photo s).2 = logCall s .processFaces := by
  unfold mainPathTail
  rcases env.processResp with _ | ⟨pok, ⟨phf, pfd, ppi⟩⟩
  · rfl
  · cases pok <;> rfl

theorem mainPathTail_fields (env : Env) (photo : Photo) (s : RunState) :
    (mainPathTail env photo s).1.requestId = photo.requestId ∧
    (mainPathTail env photo s).1.timestamp = photo.timestamp ∧
    (mainPathTail env photo s).1.mimeType = photo.mimeType := by
  unfold mainPathTail
  rcases env.processResp with _ | ⟨pok, ⟨phf, pfd, ppi⟩⟩
  · exact ⟨rfl, rfl, rfl⟩
  · cases pok <;> exact ⟨rfl, rfl, rfl⟩

theorem processPhotoWithFace_notInit (env : Env) (photo : Photo) (s : RunState)
    (h : env.faceApiInitialized = false) :
    processPhotoWithFace env photo s = (photo, s) := by
  unfold processPhotoWithFace
  rw [h]
  rfl

theorem processPhotoWithFace_cropNetFail (env : Env) (photo : Photo) (s : RunState)
    (hinit : env.faceApiInitialized = true) (h : env.cropResp = .netFail) :
    processPhotoWithFace env photo s = (photo, logCall s .cropFaces) := by
  unfold processPhotoWithFace
  rw [hinit, h]
  rfl

theorem processPhotoWithFace_cropHttpErr (env : Env) (photo : Photo) (s : RunState)
    (body : CropBody) (hinit : env.faceApiInitialized = true)
    (h : env.cropResp = .resp false body) :
    processPhotoWithFace env photo s = annotateOnly env photo (logCall s .cropFaces) := by
  unfold processPhotoWithFace
  rw [hinit, h]
  rfl

theorem processPhotoWithFace_cropNoFaces (env : Env) (photo : Photo) (s : RunState)
    (body : CropBody) (hinit : env.faceApiInitialized = true)
    (h : env.cropResp = .resp true body) (hhf : body.has_faces = false) :
    processPhotoWithFace env photo s = (photo, logCall s .cropFaces) := by
  unfold processPhotoWithFace
  rw [hinit, h]
  simp only [hhf, Bool.not_true, Bool.not_false, Bool.false_eq_true, if_false, if_true]

theorem processPhotoWithFace_mainPath (env : Env) (photo : Photo) (s : RunState)
    (body : CropBody) (hinit : env.faceApiInitialized = true)
    (h : env.cropResp = .resp true body) (hhf : body.has_faces = true) :
    processPhotoWithFace env photo s =
      (match storeFaceCrops env body.face_crops photo.requestId (logCall s .cropFaces) with
        | (.error _, s) => (photo, s)
        | (.ok _, s) => mainPathTail env photo s) := by
  unfold processPhotoWithFace
  rw [hinit, h]
  simp only [hhf, Bool.not_true, Bool.not_false, Bool.false_eq_true, if_false, if_true]

theorem processPhotoWithFace_effects (env : Env) (photo : Photo) (s : RunState) :
    onlyCropEffects s (processPhotoWithFace env photo s).2 := by
  cases hinit : env.faceApiInitialized with
  | false =>
    rw [processPhotoWithFace_notInit env photo s hinit]
    exact onlyCropEffects_refl s
  | true =>
    rcases hcrop : env.cropResp with _ | ⟨ok, body⟩
    · rw [processPhotoWithFace_cropNetFail env photo s hinit hcrop]
      exact onlyCropEffects_logCall s .cropFaces
    · cases ok with
      | false =>
        rw [processPhotoWithFace_cropHttpErr env photo s body hinit hcrop, annotateOnly_state]
        exact onlyCropEffects_trans s _ _ (onlyCropEffects_logCall s .cropFaces)
          (onlyCropEffects_logCall _ .processFaces)
      | true =>
        cases hhf : body.has_faces with
        | false =>
          rw [processPhotoWithFace_cropNoFaces env photo s body hinit hcrop hhf]
          exact onlyCropEffects_logCall s .cropFaces
        | true =>
          rw [processPhotoWithFace_mainPath env photo s body hinit hcrop hhf]
          rcases hsf : storeFaceCrops env body.face_crops photo.requestId
            (logCall s .cropFaces) with ⟨sres, s2⟩
          have hs2 : onlyCropEffects s s2 := by
            have hh := storeFaceCrops_effects env body.face_crops photo.requestId
              (logCall s .cropFaces)
            rw [hsf] at hh
            exact onlyCropEffects_trans s _ _ (onlyCropEffects_logCall s .cropFaces) hh
          cases sres with
          | error e => exact hs2
          | ok u =>
            cases u
            have hfin : onlyCropEffects s (mainPathTail env photo s2).2 := by
              rw [mainPathTail_state]
              exact onlyCropEffects_trans s s2 _ hs2 (onlyCropEffects_logCall s2 .processFaces)
            exact hfin

theorem processPhotoWithFace_fields (env : Env) (photo : Photo) (s : RunState) :
    (processPhotoWithFace env photo s).1.requestId = photo.requestId ∧
    (processPhotoWithFace env photo s).1.timestamp = photo.timestamp ∧
    (processPhotoWithFace env photo s).1.mimeType = photo.mimeType := by
  cases hinit : env.faceApiInitialized with
  | false =>
    rw [processPhotoWithFace_notInit env photo s hinit]
    exact ⟨rfl, rfl, rfl⟩
  | true =>
    rcases hcrop : env.cropResp with _ | ⟨ok, body⟩
    · rw [processPhotoWithFace_cropNetFail env photo s hinit hcrop]
      exact ⟨rfl, rfl, rfl⟩
    · cases ok with
      | false =>
        rw [processPhotoWithFace_cropHttpErr env photo s body hinit hcrop]
        exact annotateOnly_fields env photo (logCall s .cropFaces)
      | true =>
        cases hhf : body.has_faces with
        | false =>
          rw [processPhotoWithFace_cropNoFaces env photo s body hinit hcrop hhf]
          exact ⟨rfl, rfl, rfl⟩
        | true =>
          rw [processPhotoWithFace_mainPath env photo s body hinit hcrop hhf]
          rcases hsf : storeFaceCrops env body.face_crops photo.requestId
            (logCall s .cropFaces) with ⟨sres, s2⟩
          cases sres with
          | error e => exact ⟨rfl, rfl, rfl⟩
          | ok u =>
            cases u
            exact mainPathTail_fields env photo s2

theorem photoFileName_of_fields (userId : String) (p q : Photo)
    (hr : p.requestId = q.requestId) (ht : p.timestamp = q.timestamp) :
    photoFileName userId p = photoFileName userId q := by
  unfold photoFileName
  rw [hr, ht]

theorem detectFace_notInit (env : Env) (photo : Photo) (s : RunState)
    (h : env.faceApiInitialized = false) : detectFace env photo s = (true, s) := by
  unfold detectFace
  rw [h]
  rfl

theorem detectFace_netFail (env : Env) (photo : Photo) (s : RunState)
    (hinit : env.faceApiInitialized = true) (h : env.detectResp = .netFail) :
    detectFace env photo s = (true, logCall s .detectFaces) := by
  unfold detectFace
  rw [hinit, h]
  rfl

theorem detectFace_resp (env : Env) (photo : Photo) (s : RunState) (ok : Bool)
    (body : DetectBody) (hinit : env.faceApiInitialized = true)
    (h : env.detectResp = .resp ok body) :
    detectFace env photo s =
      (if (!ok) = true then (true, logCall s .detectFaces)
       else (body.has_faces, logCall s .detectFaces)) := by
  unfold detectFace
  rw [hinit, h]
  rfl

theorem uploadPhotoAndCreateEncounter_uploadErr (env : Env) (photo : Photo) (userId : String)
    (s s1 : RunState) (e : Err)
    (h : uploadObject env "testphoto" (photoFileName userId photo) photo.buffer s =
      (.error e, s1)) :
    uploadPhotoAndCreateEncounter env photo userId s = (.error e, s1) := by
  unfold uploadPhotoAndCreateEncounter
  simp only [h]

theorem uploadPhotoAndCreateEncounter_uploadOk (env : Env) (photo : Photo) (userId : String)
    (s s1 : RunState)
    (h : uploadObject env "testphoto" (photoFileName userId photo) photo.buffer s =
      (.ok (), s1)) :
    uploadPhotoAndCreateEncounter env photo userId s =
      (match insertPhotoRow env (uploadedRowFor env userId photo) s1 with
        | (.error e, s) => (.error e, s)
        | (.ok _, s) => (.ok (), s)) := by
  unfold uploadPhotoAndCreateEncounter
  simp only [h]

theorem uploadPhotoAndCreateEncounter_state_of_error (env : Env) (photo : Photo)
    (userId : String) (s : RunState) (e : Err)
    (h : (uploadPhotoAndCreateEncounter env photo userId s).1 = .error e) :
    (uploadPhotoAndCreateEncounter env photo userId s).2.records = s.records ∧
    (uploadPhotoAndCreateEncounter env photo userId s).2.messages = s.messages ∧
    (uploadPhotoAndCreateEncounter env photo userId s).2.calls = s.calls := by
  rcases hup : uploadObject env "testphoto" (photoFileName userId photo) photo.buffer s
    with ⟨res, s1⟩
  cases res with
  | error e1 =>
    have heq := uploadPhotoAndCreateEncounter_uploadErr env photo userId s s1 e1 hup
    have hs1 : s1 = s := by
      have h' := uploadObject_error_state env "testphoto" (photoFileName userId photo)
        photo.buffer s e1 (by rw [hup])
      rw [hup] at h'
      exact h'
    rw [heq, hs1]
    exact ⟨rfl, rfl, rfl⟩
  | ok u =>
    cases u
    have heq := uploadPhotoAndCreateEncounter_uploadOk env photo userId s s1 hup
    have hs1 : s1 = { s with storage := s.storage ++ [uploadedObjFor userId photo] } := by
      have h' := uploadObject_ok_state env "testphoto" (photoFileName userId photo)
        photo.buffer s (by rw [hup])
      rw [hup] at h'
      exact h'
    rw [heq]
    rcases hins : insertPhotoRow env (uploadedRowFor env userId photo) s1 with ⟨res2, s2⟩
    cases res2 with
    | error e2 =>
      have hs2 : s2 = s1 := by
        have h' := insertPhotoRow_error_state env (uploadedRowFor env userId photo) s1 e2
          (by rw [hins])
        rw [hins] at h'
        exact h'
      rw [hs2, hs1]
      exact ⟨rfl, rfl, rfl⟩
    | ok u2 =>
      cases u2
      rw [heq] at h
      rw [hins] at h
      exact absurd h (by simp)

theorem uploadPhotoAndCreateEncounter_success (env : Env) (photo : Photo) (userId : String)
    (s : RunState)
    (hdup : findObj s.storage "testphoto" (photoFileName userId photo) = none)
    (hfail : env.uploadFails "testphoto" (photoFileName userId photo) = false)
    (hins : env.insertPhotoRowFails (uploadedRowFor env userId photo) = false) :
    uploadPhotoAndCreateEncounter env photo userId s =
      (.ok (), { s with
        storage := s.storage ++ [uploadedObjFor userId photo],
        records := s.records ++ [.photoRow (uploadedRowFor env userId photo)] }) := by
  have hup : uploadObject env "testphoto" (photoFileName userId photo) photo.buffer s =
      (.ok (), { s with storage := s.storage ++ [uploadedObjFor userId photo] }) := by
    unfold uploadObject
    rw [hdup, hfail]
    rfl
  rw [uploadPhotoAndCreateEncounter_uploadOk env photo userId s _ hup]
  unfold insertPhotoRow
  rw [hins]
  simp [addRecord]

theorem onButtonPress_noFace (env : Env) (photo : Photo) (userId : String)
    (photos : List Photo) (s : RunState)
    (hdet : (detectFace env photo (showTextWall s "Taking photo...")).1 = false) :
    onButtonPress env photo userId photos s =
      (photos ++ [photo],
        showTextWall (detState env photo s) "No face detected - photo not saved") := by
  unfold onButtonPress
  simp only [hdet, Bool.not_false, if_true]
  rfl

theorem onButtonPress_hasFace (env : Env) (photo : Photo) (userId : String)
    (photos : List Photo) (s : RunState)
    (hdet : (detectFace env photo (showTextWall s "Taking photo...")).1 = true) :
    onButtonPress env photo userId photos s =
      (photos ++ [photo],
        match finalUpload env photo userId s with
        | (.error _, s) => showTextWall s "Error taking photo"
        | (.ok _, s) => showTextWall s "Photo sent successfully!") := by
  unfold onButtonPress
  simp only [hdet, Bool.not_true, Bool.false_eq_true, if_false]
  rcases hfu : finalUpload env photo userId s with ⟨res, s'⟩
  rw [show uploadPhotoAndCreateEncounter env
      (processPhotoWithFace env photo (detectFace env photo
        (showTextWall s "Taking photo...")).2).1 userId
      (processPhotoWithFace env photo (detectFace env photo
        (showTextWall s "Taking photo...")).2).2 = finalUpload env photo userId s from rfl,
    hfu]
  cases res <;> rfl

theorem uploadObject_success (env : Env) (b p c : String) (s : RunState)
    (hdup : findObj s.storage b p = none) (hf : env.uploadFails b p = false) :
    uploadObject env b p c s =
      (.ok (), { s with storage := s.storage ++
        [{ bucket := b, path := p, content := c }] }) := by
  unfold uploadObject
  rw [hdup, hf]
  rfl

theorem uploadObject_duplicate (env : Env) (b p c : String) (s : RunState)
    (h : (findObj s.storage b p).isSome = true) :
    uploadObject env b p c s = (.error (.duplicateObject b p), s) := by
  unfold uploadObject
  rw [h]
  rfl

theorem findObj_append_hit (l : List StorageObj) (o : StorageObj)
    (h : findObj l o.bucket o.path = none) :
    findObj (l ++ [o]) o.bucket o.path = some o := by
  unfold findObj at h ⊢
  rw [List.find?_append, h]
  simp

theorem findObj_append_miss (l : List StorageObj) (o : StorageObj) (b p : String)
    (h : findObj l b p = none) (hne : o.path ≠ p) :
    findObj (l ++ [o]) b p = none := by
  unfold findObj at h ⊢
  rw [List.find?_append, h]
  have hbeq : (o.path == p) = false := beq_eq_false_iff_ne.mpr hne
  simp [hbeq]

theorem detState_parts (env : Env) (photo : Photo) (s : RunState) :
    (detState env photo s).storage = s.storage ∧
    (detState env photo s).records = s.records ∧
    (detState env photo s).messages = s.messages ++ ["Taking photo..."] := by
  unfold detState
  cases hinit : env.faceApiInitialized with
  | false =>
    rw [detectFace_notInit env photo _ hinit]
    exact ⟨rfl, rfl, rfl⟩
  | true =>
    rcases hresp : env.detectResp with _ | ⟨ok, body⟩
    · rw [detectFace_netFail env photo _ hinit hresp]
      exact ⟨rfl, rfl, rfl⟩
    · rw [detectFace_resp env photo _ ok body hinit hresp]
      cases ok <;> exact ⟨rfl, rfl, rfl⟩

theorem detState_calls_init (env : Env) (photo : Photo) (s : RunState)
    (hinit : env.faceApiInitialized = true) :
    (detState env photo s).calls = (showTextWall s "Taking photo...").calls ++
      [.detectFaces] := by
  unfold detState
  rcases hresp : env.detectResp with _ | ⟨ok, body⟩
  · rw [detectFace_netFail env photo _ hinit hresp]
    rfl
  · rw [detectFace_resp env photo _ ok body hinit hresp]
    cases ok <;> rfl

theorem onButtonPress_photos (env : Env) (photo : Photo) (userId : String)
    (photos : List Photo) (s : RunState) :
    (onButtonPress env photo userId photos s).1 = photos ++ [photo] := by
  cases hdet : (detectFace env photo (showTextWall s "Taking photo...")).1 with
  | false => rw [onButtonPress_noFace env photo userId photos s hdet]
  | true =>
    rw [onButtonPress_hasFace env photo userId photos s hdet]

theorem getPhotoById_append (photos : List Photo) (photo : Photo)
    (h : getPhotoById photos photo.requestId = none) :
    getPhotoById (photos ++ [photo]) photo.requestId = some photo := by
  unfold getPhotoById at h ⊢
  rw [List.find?_append, h]
  simp

/-- C1: when detect succeeds with hasFaces=false, the run ends in the
Discarded outcome: the registry gains the photo, but no object is
uploaded, no row of any status is written, no crop or embedding call is
attempted (the call trace gains only the detect call), and the user is
shown the discard message. -/
theorem detect_no_faces_discards (env : Env) (photo : Photo) (userId : String)
    (photos : List Photo) (s : RunState) (body : DetectBody)
    (hinit : env.faceApiInitialized = true)
    (hresp : env.detectResp = .resp true body)
    (hfaces : body.has_faces = false) :
    onButtonPress env photo userId photos s =
      (photos ++ [photo],
        { storage := s.storage, records := s.records,
          calls := s.calls ++ [.detectFaces],
          messages := s.messages ++ ["Taking photo...",
            "No face detected - photo not saved"] }) := by
  have hdet : detectFace env photo (showTextWall s "Taking photo...") =
      (body.has_faces, logCall (showTextWall s "Taking photo...") .detectFaces) := by
    rw [detectFace_resp env photo _ true body hinit hresp]
    rfl
  have hdet1 : (detectFace env photo (showTextWall s "Taking photo...")).1 = false := by
    rw [hdet, hfaces]
  rw [onButtonPress_noFace env photo userId photos s hdet1]
  unfold detState
  rw [hdet]
  simp [showTextWall, logCall]

/-- C1 witness: a concrete no-face run ending discarded with zero writes. -/
theorem detect_no_faces_discards_witness :
    onButtonPress envC1 photoA "user1" [] s0 =
      ([photoA],
        { storage := [], records := [], calls := [.detectFaces],
          messages := ["Taking photo...", "No face detected - photo not saved"] }) := by
  have h := detect_no_faces_discards envC1 photoA "user1" [] s0
    { has_faces := false, faces_detected := 0 } rfl rfl rfl
  simpa [s0] using h

/-- C9: the in-memory registry receives the original captured photo
value before processing and is never mutated by the pipeline, so for a
fresh requestId the get-photo-by-id route returns the unmodified
original photo (bytes and mime type) under every environment, including
those where the photo is discarded, annotated, degraded, or its upload
fails. -/
theorem registry_keeps_original (env : Env) (photo : Photo) (userId : String)
    (photos : List Photo) (s : RunState)
    (hfresh : getPhotoById photos photo.requestId = none) :
    (onButtonPress env photo userId photos s).1 = photos ++ [photo] ∧
    getPhotoById (onButtonPress env photo userId photos s).1 photo.requestId = some photo := by
  have h1 := onButtonPress_photos env photo userId photos s
  refine ⟨h1, ?_⟩
  rw [h1]
  exact getPhotoById_append photos photo hfresh

/-- C9 witness: after a concrete run that rewrites the stored buffer,
the registry still returns the original photo. -/
theorem registry_keeps_original_witness :
    (onButtonPress envBase photoA "user1" [] s0).1 = [photoA] ∧
    getPhotoById (onButtonPress envBase photoA "user1" [] s0).1 photoA.requestId =
      some photoA := by
  have h := registry_keeps_original envBase photoA "user1" [] s0 rfl
  simpa using h

theorem findObj_append_uploaded (l : List StorageObj) (userId : String) (p : Photo)
    (h : findObj l "testphoto" (photoFileName userId p) = none) :
    findObj (l ++ [uploadedObjFor userId p]) "testphoto" (photoFileName userId p) =
      some (uploadedObjFor userId p) :=
  findObj_append_hit l (uploadedObjFor userId p) h

/-- C8: re-running the pipeline on the same CapturedPhoto against a
storage that already holds an object at the photo's deterministic path
(a function of the user id, the request id and the timestamp), the
second full-photo upload fails with a duplicate-path collision whenever
the run reaches the upload (upsert=false semantics): the run ends with
the error wall, the object stored at that path is unchanged (no silent
overwrite), and no second status=uploaded row is written. -/
theorem rerun_duplicate_upload_fails (env : Env) (photo : Photo) (userId : String)
    (photos : List Photo) (s : RunState)
    (hprev : (findObj s.storage "testphoto" (photoFileName userId photo)).isSome = true)
    (hdet : (detectFace env photo (showTextWall s "Taking photo...")).1 = true) :
    (onButtonPress env photo userId photos s).2.messages =
      s.messages ++ ["Taking photo...", "Error taking photo"] ∧
    findObj (onButtonPress env photo userId photos s).2.storage "testphoto"
      (photoFileName userId photo) =
      findObj s.storage "testphoto" (photoFileName userId photo) ∧
    (onButtonPress env photo userId photos s).2.records.filter isUploadedRecord =
      s.records.filter isUploadedRecord := by
  have heff : onlyCropEffects (detState env photo s) (procResult env photo s).2 :=
    processPhotoWithFace_effects env photo (detState env photo s)
  have hdp := detState_parts env photo s
  have hff := processPhotoWithFace_fields env photo (detState env photo s)
  have hfn : photoFileName userId (procResult env photo s).1 = photoFileName userId photo :=
    photoFileName_of_fields userId _ photo hff.1 hff.2.1
  have hlook : (findObj (procResult env photo s).2.storage "testphoto"
      (photoFileName userId photo)).isSome = true := by
    rw [onlyCropEffects_findObj_testphoto _ _ heff, hdp.1]
    exact hprev
  have hupObj := uploadObject_duplicate env "testphoto"
    (photoFileName userId (procResult env photo s).1) (procResult env photo s).1.buffer
    (procResult env photo s).2 (by rw [hfn]; exact hlook)
  have hfu : finalUpload env photo userId s =
      (.error (.duplicateObject "testphoto" (photoFileName userId (procResult env photo s).1)),
        (procResult env photo s).2) :=
    uploadPhotoAndCreateEncounter_uploadErr env (procResult env photo s).1 userId
      (procResult env photo s).2 (procResult env photo s).2 _ hupObj
  rw [onButtonPress_hasFace env photo userId photos s hdet, hfu]
  refine ⟨?_, ?_, ?_⟩
  · show (procResult env photo s).2.messages ++ ["Error taking photo"] = _
    rw [heff.1, hdp.2.2, List.append_assoc]
    rfl
  · show findObj (procResult env photo s).2.storage "testphoto"
      (photoFileName userId photo) = _
    rw [onlyCropEffects_findObj_testphoto _ _ heff, hdp.1]
  · show (procResult env photo s).2.records.filter isUploadedRecord = _
    rw [onlyCropEffects_filter_uploaded _ _ heff, hdp.2.1]

/-- C8 witness: a concrete second run over a storage that already holds
the photo at its path ends in the error wall with nothing overwritten. -/
theorem rerun_duplicate_upload_fails_witness :
    (onButtonPress envUnavail photoA "user1" [] sPrev).2.messages =
      sPrev.messages ++ ["Taking photo...", "Error taking photo"] ∧
    findObj (onButtonPress envUnavail photoA "user1" [] sPrev).2.storage "testphoto"
      (photoFileName "user1" photoA) =
      findObj sPrev.storage "testphoto" (photoFileName "user1" photoA) ∧
    (onButtonPress envUnavail photoA "user1" [] sPrev).2.records.filter isUploadedRecord =
      sPrev.records.filter isUploadedRecord :=
  rerun_duplicate_upload_fails envUnavail photoA "user1" [] sPrev rfl rfl

theorem finalUpload_state_of_error (env : Env) (photo : Photo) (userId : String)
    (s : RunState) (e : Err) (h : (finalUpload env photo userId s).1 = .error e) :
    (finalUpload env photo userId s).2.records = (procResult env photo s).2.records ∧
    (finalUpload env photo userId s).2.messages = (procResult env photo s).2.messages ∧
    (finalUpload env photo userId s).2.calls = (procResult env photo s).2.calls :=
  uploadPhotoAndCreateEncounter_state_of_error env (procResult env photo s).1 userId
    (procResult env photo s).2 e h

/-- C10: face-crop and embedding rows are written before the full-photo
upload; when the final upload or its status=uploaded row write fails,
the run ends with the error wall, the rows already written by the crop
stage remain in storage with no rollback, and no status=uploaded row is
added for them. -/
theorem final_upload_failure_no_rollback (env : Env) (photo : Photo) (userId : String)
    (photos : List Photo) (s : RunState) (e : Err)
    (hdet : (detectFace env photo (showTextWall s "Taking photo...")).1 = true)
    (hup : (finalUpload env photo userId s).1 = .error e) :
    (onButtonPress env photo userId photos s).2.records =
      (procResult env photo s).2.records ∧
    (∃ t, (procResult env photo s).2.records = s.records ++ t ∧
      ∀ x ∈ t, isFaceCropRecord x = true ∨ isEmbedRecord x = true) ∧
    (onButtonPress env photo userId photos s).2.records.filter isUploadedRecord =
      s.records.filter isUploadedRecord ∧
    (onButtonPress env photo userId photos s).2.messages =
      s.messages ++ ["Taking photo...", "Error taking photo"] := by
  have heff : onlyCropEffects (detState env photo s) (procResult env photo s).2 :=
    processPhotoWithFace_effects env photo (detState env photo s)
  have hdp := detState_parts env photo s
  have hstate := finalUpload_state_of_error env photo userId s e hup
  rw [onButtonPress_hasFace env photo userId photos s hdet]
  rcases hfu : finalUpload env photo userId s with ⟨res, sU⟩
  rw [hfu] at hup
  simp only at hup
  subst hup
  simp only [hfu] at hstate
  refine ⟨?_, ?_, ?_, ?_⟩
  · show sU.records = (procResult env photo s).2.records
    exact hstate.1
  · obtain ⟨_, ⟨t, ht, htp⟩, _⟩ := heff
    exact ⟨t, by rw [← hdp.2.1]; exact ht, htp⟩
  · show sU.records.filter isUploadedRecord = _
    rw [hstate.1, onlyCropEffects_filter_uploaded _ _ heff, hdp.2.1]
  · show sU.messages ++ ["Error taking photo"] = _
    rw [hstate.2.1, heff.1, hdp.2.2, List.append_assoc]
    rfl

/-- C10 witness: a concrete run whose final upload fails keeps its
already-written rows and ends with the error wall. -/
theorem final_upload_failure_no_rollback_witness :
    (onButtonPress envC10 photoA "user1" [] s0).2.records =
      (procResult envC10 photoA s0).2.records ∧
    (∃ t, (procResult envC10 photoA s0).2.records = s0.records ++ t ∧
      ∀ x ∈ t, isFaceCropRecord x = true ∨ isEmbedRecord x = true) ∧
    (onButtonPress envC10 photoA "user1" [] s0).2.records.filter isUploadedRecord =
      s0.records.filter isUploadedRecord ∧
    (onButtonPress envC10 photoA "user1" [] s0).2.messages =
      s0.messages ++ ["Taking photo...", "Error taking photo"] :=
  final_upload_failure_no_rollback envC10 photoA "user1" [] s0
    (.storageFailure "testphoto" (photoFileName "user1" photoA)) rfl rfl

/-- C2: when the analysis capability is unavailable at startup or the
detect call fails (network failure or non-ok status), the photo is
treated as containing a face: detection answers true, the run never
shows the discard wall, and, with the final persistence succeeding, the
run ends in Saved (success wall and the photo object present in
storage), with zero face-crop rows added in the unavailable case. -/
theorem analysis_failure_fails_open (env : Env) (photo : Photo) (userId : String)
    (photos : List Photo) (s : RunState)
    (hfail : env.faceApiInitialized = false ∨
      (env.faceApiInitialized = true ∧
        (env.detectResp = .netFail ∨ ∃ b, env.detectResp = .resp false b)))
    (hdup : findObj s.storage "testphoto" (photoFileName userId photo) = none)
    (hupl : ∀ p, env.uploadFails "testphoto" p = false)
    (hins : ∀ r, env.insertPhotoRowFails r = false) :
    (detectFace env photo (showTextWall s "Taking photo...")).1 = true ∧
    (onButtonPress env photo userId photos s).2.messages =
      s.messages ++ ["Taking photo...", "Photo sent successfully!"] ∧
    (findObj (onButtonPress env photo userId photos s).2.storage "testphoto"
      (photoFileName userId photo)).isSome = true ∧
    (env.faceApiInitialized = false →
      (onButtonPress env photo userId photos s).2.records.filter isFaceCropRecord =
        s.records.filter isFaceCropRecord) := by
  have hdet : (detectFace env photo (showTextWall s "Taking photo...")).1 = true := by
    rcases hfail with hinit | ⟨hinit, hd⟩
    · rw [detectFace_notInit env photo _ hinit]
    · rcases hd with hd | ⟨b, hd⟩
      · rw [detectFace_netFail env photo _ hinit hd]
      · rw [detectFace_resp env photo _ false b hinit hd]
        rfl
  have heff : onlyCropEffects (detState env photo s) (procResult env photo s).2 :=
    processPhotoWithFace_effects env photo (detState env photo s)
  have hdp := detState_parts env photo s
  have hff := processPhotoWithFace_fields env photo (detState env photo s)
  have hfn : photoFileName userId (procResult env photo s).1 = photoFileName userId photo :=
    photoFileName_of_fields userId _ photo hff.1 hff.2.1
  have hdupProc : findObj (procResult env photo s).2.storage "testphoto"
      (photoFileName userId (procResult env photo s).1) = none := by
    rw [hfn, onlyCropEffects_findObj_testphoto _ _ heff, hdp.1]
    exact hdup
  have hsucc := uploadPhotoAndCreateEncounter_success env (procResult env photo s).1 userId
    (procResult env photo s).2 hdupProc (hupl _) (hins _)
  rw [show uploadPhotoAndCreateEncounter env (procResult env photo s).1 userId
    (procResult env photo s).2 = finalUpload env photo userId s from rfl] at hsucc
  rw [onButtonPress_hasFace env photo userId photos s hdet, hsucc]
  refine ⟨hdet, ?_, ?_, ?_⟩
  · show (procResult env photo s).2.messages ++ ["Photo sent successfully!"] = _
    rw [heff.1, hdp.2.2, List.append_assoc]
    rfl
  · show (findObj ((procResult env photo s).2.storage ++
      [uploadedObjFor userId (procResult env photo s).1]) "testphoto"
      (photoFileName userId photo)).isSome = true
    rw [← hfn]
    rw [findObj_append_uploaded (procResult env photo s).2.storage userId
      (procResult env photo s).1 hdupProc]
    rfl
  · intro hinit
    have hproc : procResult env photo s = (photo, detState env photo s) :=
      processPhotoWithFace_notInit env photo (detState env photo s) hinit
    have hrow : isFaceCropRecord
        (DbRecord.photoRow (uploadedRowFor env userId photo)) = false := rfl
    show ((procResult env photo s).2.records ++
      [DbRecord.photoRow (uploadedRowFor env userId (procResult env photo s).1)]).filter
        isFaceCropRecord = _
    rw [hproc]
    simp [List.filter_append, hrow, hdp.2.1]

/-- C2 witness: a concrete run with the capability unavailable reaches
Saved with zero face-crop rows. -/
theorem analysis_failure_fails_open_witness :
    (detectFace envUnavail photoA (showTextWall s0 "Taking photo...")).1 = true ∧
    (onButtonPress envUnavail photoA "user1" [] s0).2.messages =
      s0.messages ++ ["Taking photo...", "Photo sent successfully!"] ∧
    (findObj (onButtonPress envUnavail photoA "user1" [] s0).2.storage "testphoto"
      (photoFileName "user1" photoA)).isSome = true ∧
    (envUnavail.faceApiInitialized = false →
      (onButtonPress envUnavail photoA "user1" [] s0).2.records.filter isFaceCropRecord =
        s0.records.filter isFaceCropRecord) :=
  analysis_failure_fails_open envUnavail photoA "user1" [] s0 (Or.inl rfl) rfl
    (fun _ => rfl) (fun _ => rfl)

/-- C3 counterexample: in a concrete run where the face-crop upload
fails (StorageError), the error does not propagate to the intake
controller: the run shows the success wall, not a failure, and the full
photo is still uploaded. -/
theorem crop_failure_not_fatal_cex :
    (onButtonPress envC3 photoA "user1" [] s0).2.messages =
      ["Taking photo...", "Photo sent successfully!"] ∧
    (findObj (onButtonPress envC3 photoA "user1" [] s0).2.storage "testphoto"
      (photoFileName "user1" photoA)).isSome = true := ⟨rfl, rfl⟩

/-- C3 amended: a failure to upload a face crop or to write its
face_crop row aborts only the remaining crop persistence and the
annotate step: processPhotoWithFace catches the error and returns the
original photo together with the partial crop-stage writes, so the
pipeline goes on to upload the photo instead of reporting the crop
failure to the user. -/
theorem crop_failure_caught (env : Env) (photo : Photo) (s : RunState)
    (body : CropBody) (e : Err)
    (hinit : env.faceApiInitialized = true)
    (hcrop : env.cropResp = .resp true body)
    (hbf : body.has_faces = true)
    (hfail : (storeFaceCrops env body.face_crops photo.requestId
      (logCall s .cropFaces)).1 = .error e) :
    processPhotoWithFace env photo s =
      (photo, (storeFaceCrops env body.face_crops photo.requestId
        (logCall s .cropFaces)).2) := by
  rw [processPhotoWithFace_mainPath env photo s body hinit hcrop hbf]
  rcases hsf : storeFaceCrops env body.face_crops photo.requestId (logCall s .cropFaces)
    with ⟨res, s2⟩
  rw [hsf] at hfail
  simp only at hfail
  cases res with
  | error e1 => rfl
  | ok u => exact absurd hfail (by simp)

/-- C3 amended witness: the concrete failing-crop run is caught and
returns the original photo with the partial state. -/
theorem crop_failure_caught_witness :
    processPhotoWithFace envC3 photoA s0 =
      (photoA, (storeFaceCrops envC3 [cropA] photoA.requestId
        (logCall s0 .cropFaces)).2) :=
  crop_failure_caught envC3 photoA s0
    { has_faces := true, faces_detected := 1, face_crops := [cropA] }
    (.storageFailure "face_crops" (cropFileNameFor 7 "req1" 1)) rfl rfl rfl rfl

/-- C6 counterexample: in a concrete run where the crop-faces call is
unreachable (an AnalysisError per the spec taxonomy), the annotate
operation is never invoked — the call trace ends at the crop call —
even though the photo is still persisted and the run reports success. -/
theorem crop_unreachable_skips_annotate_cex :
    (onButtonPress envC6 photoA "user1" [] s0).2.calls =
      [.detectFaces, .cropFaces] ∧
    (onButtonPress envC6 photoA "user1" [] s0).2.records.filter isFaceCropRecord = [] ∧
    (onButtonPress envC6 photoA "user1" [] s0).2.messages =
      ["Taking photo...", "Photo sent successfully!"] ∧
    findObj (onButtonPress envC6 photoA "user1" [] s0).2.storage "testphoto"
      (photoFileName "user1" photoA) = some (uploadedObjFor "user1" photoA) :=
  ⟨rfl, rfl, rfl, rfl⟩

/-- C6 amended: when the crop-faces call answers with a non-ok HTTP
status, the pipeline falls back to the annotate-only path: the annotate
call is made, zero face-crop and zero embedding rows are written, and,
with persistence succeeding, the photo is still uploaded and the run
reports success; when the crop-faces call is instead unreachable at
transport level, the annotate step is skipped and the original photo is
uploaded directly. -/
theorem crop_http_error_annotate_fallback (env : Env) (photo : Photo) (userId : String)
    (photos : List Photo) (s : RunState) (body : CropBody)
    (hinit : env.faceApiInitialized = true)
    (hdet : (detectFace env photo (showTextWall s "Taking photo...")).1 = true)
    (hcrop : env.cropResp = .resp false body)
    (hdup : findObj s.storage "testphoto" (photoFileName userId photo) = none)
    (hupl : ∀ p, env.uploadFails "testphoto" p = false)
    (hins : ∀ r, env.insertPhotoRowFails r = false) :
    (onButtonPress env photo userId photos s).2.calls =
      s.calls ++ [.detectFaces, .cropFaces, .processFaces] ∧
    (onButtonPress env photo userId photos s).2.records.filter isFaceCropRecord =
      s.records.filter isFaceCropRecord ∧
    (onButtonPress env photo userId photos s).2.records.filter isEmbedRecord =
      s.records.filter isEmbedRecord ∧
    (onButtonPress env photo userId photos s).2.messages =
      s.messages ++ ["Taking photo...", "Photo sent successfully!"] ∧
    (findObj (onButtonPress env photo userId photos s).2.storage "testphoto"
      (photoFileName userId photo)).isSome = true := by
  have hdp := detState_parts env photo s
  have hcalls := detState_calls_init env photo s hinit
  have hprocEq : procResult env photo s =
      annotateOnly env photo (logCall (detState env photo s) .cropFaces) :=
    processPhotoWithFace_cropHttpErr env photo (detState env photo s) body hinit hcrop
  have hstate : (procResult env photo s).2 =
      logCall (logCall (detState env photo s) .cropFaces) .processFaces := by
    rw [hprocEq, annotateOnly_state]
  have hfieldsA := annotateOnly_fields env photo (logCall (detState env photo s) .cropFaces)
  have hfn : photoFileName userId (procResult env photo s).1 = photoFileName userId photo := by
    rw [hprocEq]
    exact photoFileName_of_fields userId _ photo hfieldsA.1 hfieldsA.2.1
  have hdupProc : findObj (procResult env photo s).2.storage "testphoto"
      (photoFileName userId (procResult env photo s).1) = none := by
    rw [hfn, hstate]
    show findObj (detState env photo s).storage "testphoto" (photoFileName userId photo) = none
    rw [hdp.1]
    exact hdup
  have hsucc := uploadPhotoAndCreateEncounter_success env (procResult env photo s).1 userId
    (procResult env photo s).2 hdupProc (hupl _) (hins _)
  rw [show uploadPhotoAndCreateEncounter env (procResult env photo s).1 userId
    (procResult env photo s).2 = finalUpload env photo userId s from rfl] at hsucc
  have hrowc : isFaceCropRecord
      (DbRecord.photoRow (uploadedRowFor env userId (procResult env photo s).1)) = false := rfl
  have hrowe : isEmbedRecord
      (DbRecord.photoRow (uploadedRowFor env userId (procResult env photo s).1)) = false := rfl
  rw [onButtonPress_hasFace env photo userId photos s hdet, hsucc]
  refine ⟨?_, ?_, ?_, ?_, ?_⟩
  · show (procResult env photo s).2.calls = _
    rw [hstate]
    show (detState env photo s).calls ++ [.cropFaces] ++ [.processFaces] = _
    rw [hcalls]
    show s.calls ++ [.detectFaces] ++ [.cropFaces] ++ [.processFaces] = _
    simp [List.append_assoc]
  · show ((procResult env photo s).2.records ++
      [DbRecord.photoRow (uploadedRowFor env userId (procResult env photo s).1)]).filter
        isFaceCropRecord = _
    rw [List.filter_append]
    simp only [hrowc, List.filter_cons, Bool.false_eq_true, if_false, List.filter_nil,
      List.append_nil]
    rw [hstate]
    show (detState env photo s).records.filter isFaceCropRecord = _
    rw [hdp.2.1]
  · show ((procResult env photo s).2.records ++
      [DbRecord.photoRow (uploadedRowFor env userId (procResult env photo s).1)]).filter
        isEmbedRecord = _
    rw [List.filter_append]
    simp only [hrowe, List.filter_cons, Bool.false_eq_true, if_false, List.filter_nil,
      List.append_nil]
    rw [hstate]
    show (detState env photo s).records.filter isEmbedRecord = _
    rw [hdp.2.1]
  · show (procResult env photo s).2.messages ++ ["Photo sent successfully!"] = _
    rw [hstate]
    show (detState env photo s).messages ++ ["Photo sent successfully!"] = _
    rw [hdp.2.2, List.append_assoc]
    rfl
  · show (findObj ((procResult env photo s).2.storage ++
      [uploadedObjFor userId (procResult env photo s).1]) "testphoto"
      (photoFileName userId photo)).isSome = true
    rw [← hfn]
    rw [findObj_append_uploaded (procResult env photo s).2.storage userId
      (procResult env photo s).1 hdupProc]
    rfl

/-- C6 amended witness: a concrete non-ok crop-faces run uses the
annotate-only path with zero crop rows and still saves the photo. -/
theorem crop_http_error_annotate_fallback_witness :
    (onButtonPress envCropHttpErr photoA "user1" [] s0).2.calls =
      s0.calls ++ [.detectFaces, .cropFaces, .processFaces] ∧
    (onButtonPress envCropHttpErr photoA "user1" [] s0).2.records.filter isFaceCropRecord =
      s0.records.filter isFaceCropRecord ∧
    (onButtonPress envCropHttpErr photoA "user1" [] s0).2.records.filter isEmbedRecord =
      s0.records.filter isEmbedRecord ∧
    (onButtonPress envCropHttpErr photoA "user1" [] s0).2.messages =
      s0.messages ++ ["Taking photo...", "Photo sent successfully!"] ∧
    (findObj (onButtonPress envCropHttpErr photoA "user1" [] s0).2.storage "testphoto"
      (photoFileName "user1" photoA)).isSome = true :=
  crop_http_error_annotate_fallback envCropHttpErr photoA "user1" [] s0
    { has_faces := false, faces_detected := 0, face_crops := [] } rfl rfl rfl rfl
    (fun _ => rfl) (fun _ => rfl)

/-- C7 counterexample: in a concrete run where crop-faces succeeds with
hasFaces=false and the annotate capability is available and would
succeed, the code never calls annotate — the call trace ends at the
crop call — and the raw original photo is stored, contradicting the
claim that the pipeline still proceeds to annotate and stores the raw
original only if annotation is unavailable or fails. -/
theorem crop_no_faces_skips_annotate_cex :
    (onButtonPress envC7 photoA "user1" [] s0).2.calls =
      [.detectFaces, .cropFaces] ∧
    findObj (onButtonPress envC7 photoA "user1" [] s0).2.storage "testphoto"
      (photoFileName "user1" photoA) = some (uploadedObjFor "user1" photoA) :=
  ⟨rfl, rfl⟩

/-- C7 amended: when crop-faces succeeds but reports hasFaces=false,
the pipeline persists no crops and skips the annotate step entirely:
the call trace gains only detect and crop calls, and, with persistence
succeeding, the raw original photo bytes are uploaded and the run
reports success. -/
theorem crop_no_faces_save_original (env : Env) (photo : Photo) (userId : String)
    (photos : List Photo) (s : RunState) (body : CropBody)
    (hinit : env.faceApiInitialized = true)
    (hdet : (detectFace env photo (showTextWall s "Taking photo...")).1 = true)
    (hcrop : env.cropResp = .resp true body)
    (hhf : body.has_faces = false)
    (hdup : findObj s.storage "testphoto" (photoFileName userId photo) = none)
    (hupl : ∀ p, env.uploadFails "testphoto" p = false)
    (hins : ∀ r, env.insertPhotoRowFails r = false) :
    (onButtonPress env photo userId photos s).2.calls =
      s.calls ++ [.detectFaces, .cropFaces] ∧
    (onButtonPress env photo userId photos s).2.records.filter isFaceCropRecord =
      s.records.filter isFaceCropRecord ∧
    findObj (onButtonPress env photo userId photos s).2.storage "testphoto"
      (photoFileName userId photo) = some (uploadedObjFor userId photo) ∧
    (onButtonPress env photo userId photos s).2.messages =
      s.messages ++ ["Taking photo...", "Photo sent successfully!"] := by
  have hdp := detState_parts env photo s
  have hcalls := detState_calls_init env photo s hinit
  have hprocEq : procResult env photo s = (photo, logCall (detState env photo s) .cropFaces) :=
    processPhotoWithFace_cropNoFaces env photo (detState env photo s) body hinit hcrop hhf
  have hdupProc : findObj (procResult env photo s).2.storage "testphoto"
      (photoFileName userId (procResult env photo s).1) = none := by
    rw [hprocEq]
    show findObj (detState env photo s).storage "testphoto" (photoFileName userId photo) = none
    rw [hdp.1]
    exact hdup
  have hsucc := uploadPhotoAndCreateEncounter_success env (procResult env photo s).1 userId
    (procResult env photo s).2 hdupProc (hupl _) (hins _)
  rw [show uploadPhotoAndCreateEncounter env (procResult env photo s).1 userId
    (procResult env photo s).2 = finalUpload env photo userId s from rfl] at hsucc
  have hrowc : isFaceCropRecord
      (DbRecord.photoRow (uploadedRowFor env userId (procResult env photo s).1)) = false := rfl
  rw [onButtonPress_hasFace env photo userId photos s hdet, hsucc]
  refine ⟨?_, ?_, ?_, ?_⟩
  · show (procResult env photo s).2.calls = _
    rw [hprocEq]
    show (detState env photo s).calls ++ [.cropFaces] = _
    rw [hcalls]
    show s.calls ++ [.detectFaces] ++ [.cropFaces] = _
    simp [List.append_assoc]
  · show ((procResult env photo s).2.records ++
      [DbRecord.photoRow (uploadedRowFor env userId (procResult env photo s).1)]).filter
        isFaceCropRecord = _
    rw [List.filter_append]
    simp only [hrowc, List.filter_cons, Bool.false_eq_true, if_false, List.filter_nil,
      List.append_nil]
    rw [hprocEq]
    show (detState env photo s).records.filter isFaceCropRecord = _
    rw [hdp.2.1]
  · show findObj ((procResult env photo s).2.storage ++
      [uploadedObjFor userId (procResult env photo s).1]) "testphoto"
      (photoFileName userId photo) = some (uploadedObjFor userId photo)
    rw [hprocEq]
    show findObj ((detState env photo s).storage ++ [uploadedObjFor userId photo]) "testphoto"
      (photoFileName userId photo) = some (uploadedObjFor userId photo)
    apply findObj_append_uploaded
    rw [hdp.1]
    exact hdup
  · show (procResult env photo s).2.messages ++ ["Photo sent successfully!"] = _
    rw [hprocEq]
    show (detState env photo s).messages ++ ["Photo sent successfully!"] = _
    rw [hdp.2.2, List.append_assoc]
    rfl

/-- C7 amended witness: the concrete no-faces crop run skips annotation
and stores the raw original. -/
theorem crop_no_faces_save_original_witness :
    (onButtonPress envC7 photoA "user1" [] s0).2.calls =
      s0.calls ++ [.detectFaces, .cropFaces] ∧
    (onButtonPress envC7 photoA "user1" [] s0).2.records.filter isFaceCropRecord =
      s0.records.filter isFaceCropRecord ∧
    findObj (onButtonPress envC7 photoA "user1" [] s0).2.storage "testphoto"
      (photoFileName "user1" photoA) = some (uploadedObjFor "user1" photoA) ∧
    (onButtonPress envC7 photoA "user1" [] s0).2.messages =
      s0.messages ++ ["Taking photo...", "Photo sent successfully!"] :=
  crop_no_faces_save_original envC7 photoA "user1" [] s0
    { has_faces := false, faces_detected := 0, face_crops := [] } rfl rfl rfl rfl rfl
    (fun _ => rfl) (fun _ => rfl)

theorem insertPhotoRow_success (env : Env) (r : TestphotoRow) (s : RunState)
    (h : env.insertPhotoRowFails r = false) :
    insertPhotoRow env r s = (.ok (), addRecord s (.photoRow r)) := by
  unfold insertPhotoRow
  rw [h]
  rfl

theorem uploadObject_crop_success (env : Env) (rid : String) (c : FaceCropData)
    (s : RunState)
    (hdup : findObj s.storage "face_crops" (cropFileNameFor env.now rid c.face_id) = none)
    (hf : env.uploadFails "face_crops" (cropFileNameFor env.now rid c.face_id) = false) :
    uploadObject env "face_crops" (cropFileNameFor env.now rid c.face_id)
      c.face_crop_base64 s =
      (.ok (), { s with storage := s.storage ++ [cropObjFor env rid c] }) :=
  uploadObject_success env "face_crops" (cropFileNameFor env.now rid c.face_id)
    c.face_crop_base64 s hdup hf

theorem storeFaceCrops_success (env : Env) (crops : List FaceCropData) (rid : String)
    (hupl : ∀ p, env.uploadFails "face_crops" p = false)
    (hins : ∀ r, env.insertPhotoRowFails r = false) :
    ∀ s : RunState,
      crops.Pairwise (fun a b => a.face_id ≠ b.face_id) →
      (∀ c ∈ crops, findObj s.storage "face_crops"
        (cropFileNameFor env.now rid c.face_id) = none) →
      (storeFaceCrops env crops rid s).1 = .ok () ∧
      (storeFaceCrops env crops rid s).2.records.filter isFaceCropRecord =
        s.records.filter isFaceCropRecord ++
          crops.map (fun c => DbRecord.photoRow (cropRowFor env rid c)) ∧
      (storeFaceCrops env crops rid s).2.storage =
        s.storage ++ crops.map (fun c => cropObjFor env rid c) := by
  induction crops with
  | nil =>
    intro s _ _
    exact ⟨rfl, by simp [storeFaceCrops], by simp [storeFaceCrops]⟩
  | cons c rest ih =>
    intro s hpair hnone
    have hupC := uploadObject_crop_success env rid c s
      (hnone c (List.mem_cons_self c rest)) (hupl _)
    have hinsS := insertPhotoRow_success env (cropRowFor env rid c)
      { s with storage := s.storage ++ [cropObjFor env rid c] } (hins _)
    simp only [storeFaceCrops, hupC, hinsS]
    have hpairRest : rest.Pairwise (fun a b => a.face_id ≠ b.face_id) :=
      (List.pairwise_cons.mp hpair).2
    have hheadNe : ∀ c2 ∈ rest, c.face_id ≠ c2.face_id :=
      (List.pairwise_cons.mp hpair).1
    have hnoneNext : ∀ (x : RunState),
        x.storage = s.storage ++ [cropObjFor env rid c] →
        ∀ c2 ∈ rest, findObj x.storage "face_crops"
          (cropFileNameFor env.now rid c2.face_id) = none := by
      intro x hx c2 hc2
      rw [hx]
      apply findObj_append_miss
      · exact hnone c2 (List.mem_cons_of_mem c hc2)
      · show cropFileNameFor env.now rid c.face_id ≠ cropFileNameFor env.now rid c2.face_id
        intro heq
        exact hheadNe c2 hc2 (cropFileNameFor_inj env.now rid c.face_id c2.face_id heq)
    rcases generateAndStoreEmbedding_cases env c.face_crop_base64
      (tempPersonIdFor env.now c.face_id)
      (getPublicUrl "face_crops" (cropFileNameFor env.now rid c.face_id))
      (addRecord { s with storage := s.storage ++ [cropObjFor env rid c] }
        (.photoRow (cropRowFor env rid c))) with hemb | ⟨r, hemb⟩
    · rw [hemb]
      have hrec := ih (logCall (addRecord { s with storage := s.storage ++
          [cropObjFor env rid c] } (.photoRow (cropRowFor env rid c)))
        .generateEmbedding) hpairRest (hnoneNext _ rfl)
      refine ⟨hrec.1, ?_, ?_⟩
      · rw [hrec.2.1]
        have hrow : isFaceCropRecord (DbRecord.photoRow (cropRowFor env rid c)) = true := rfl
        show (s.records ++ [DbRecord.photoRow (cropRowFor env rid c)]).filter
          isFaceCropRecord ++ _ = _
        simp [hrow, List.filter_append, List.append_assoc]
      · rw [hrec.2.2]
        show s.storage ++ [cropObjFor env rid c] ++ _ = _
        simp [List.append_assoc]
    · rw [hemb]
      have hrec := ih (addRecord (logCall (addRecord { s with storage := s.storage ++
          [cropObjFor env rid c] } (.photoRow (cropRowFor env rid c)))
        .generateEmbedding) (.embedRow r)) hpairRest (hnoneNext _ rfl)
      refine ⟨hrec.1, ?_, ?_⟩
      · rw [hrec.2.1]
        have hrow : isFaceCropRecord (DbRecord.photoRow (cropRowFor env rid c)) = true := rfl
        have hrowE : isFaceCropRecord (DbRecord.embedRow r) = false := rfl
        show (s.records ++ [DbRecord.photoRow (cropRowFor env rid c)] ++
          [DbRecord.embedRow r]).filter isFaceCropRecord ++ _ = _
        simp [hrow, hrowE, List.filter_append, List.append_assoc]
      · rw [hrec.2.2]
        show s.storage ++ [cropObjFor env rid c] ++ _ = _
        simp [List.append_assoc]

/-- C4: for a successful crop list with locally distinct face ids whose
uploads and row writes all succeed, storeFaceCrops succeeds and writes
exactly one status=face_crop row per crop, sequentially in list order
(the face_crop rows appended are exactly the image of the crop list, in
order), each carrying the temp person id temp_person_(instant)_(faceId)
in its metadata, and those temp person ids are pairwise distinct. -/
theorem crops_persisted_exactly (env : Env) (crops : List FaceCropData) (rid : String)
    (s : RunState)
    (hpair : crops.Pairwise (fun a b => a.face_id ≠ b.face_id))
    (hnone : ∀ c ∈ crops, findObj s.storage "face_crops"
      (cropFileNameFor env.now rid c.face_id) = none)
    (hupl : ∀ p, env.uploadFails "face_crops" p = false)
    (hins : ∀ r, env.insertPhotoRowFails r = false) :
    (storeFaceCrops env crops rid s).1 = .ok () ∧
    (storeFaceCrops env crops rid s).2.records.filter isFaceCropRecord =
      s.records.filter isFaceCropRecord ++
        crops.map (fun c => DbRecord.photoRow (cropRowFor env rid c)) ∧
    (crops.map (fun c => tempPersonIdFor env.now c.face_id)).Pairwise
      (fun a b => a ≠ b) := by
  have h := storeFaceCrops_success env crops rid hupl hins s hpair hnone
  refine ⟨h.1, h.2.1, ?_⟩
  refine List.Pairwise.map _ ?_ hpair
  intro a b hab heq
  exact hab (tempPersonIdFor_inj env.now a.face_id b.face_id heq)

/-- C4 witness: two concrete crops with distinct face ids yield exactly
two face_crop rows in order with distinct temp person ids. -/
theorem crops_persisted_exactly_witness :
    (storeFaceCrops envTwoCrops [cropA, cropB] "req1" s0).1 = .ok () ∧
    (storeFaceCrops envTwoCrops [cropA, cropB] "req1" s0).2.records.filter
      isFaceCropRecord =
      s0.records.filter isFaceCropRecord ++
        [cropA, cropB].map (fun c => DbRecord.photoRow (cropRowFor envTwoCrops "req1" c)) ∧
    ([cropA, cropB].map (fun c => tempPersonIdFor envTwoCrops.now c.face_id)).Pairwise
      (fun a b => a ≠ b) :=
  crops_persisted_exactly envTwoCrops [cropA, cropB] "req1" s0 (by decide) (by decide)
    (fun _ => rfl) (fun _ => rfl)

theorem stateAgree_refl (s : RunState) : StateAgree s s := ⟨rfl, rfl, rfl, rfl⟩

theorem stateAgree_logCall (s1 s2 : RunState) (c : ServiceCall) (h : StateAgree s1 s2) :
    StateAgree (logCall s1 c) (logCall s2 c) := by
  refine ⟨h.1, ?_, h.2.2.1, h.2.2.2⟩
  show s1.calls ++ [c] = s2.calls ++ [c]
  rw [h.2.1]

theorem stateAgree_showTextWall (s1 s2 : RunState) (m : String) (h : StateAgree s1 s2) :
    StateAgree (showTextWall s1 m) (showTextWall s2 m) := by
  refine ⟨h.1, h.2.1, ?_, h.2.2.2⟩
  show s1.messages ++ [m] = s2.messages ++ [m]
  rw [h.2.2.1]

theorem stateAgree_addPhotoRow (s1 s2 : RunState) (r : TestphotoRow) (h : StateAgree s1 s2) :
    StateAgree (addRecord s1 (.photoRow r)) (addRecord s2 (.photoRow r)) := by
  refine ⟨h.1, h.2.1, h.2.2.1, ?_⟩
  show (s1.records ++ [DbRecord.photoRow r]).filter _ =
    (s2.records ++ [DbRecord.photoRow r]).filter _
  rw [List.filter_append, List.filter_append, h.2.2.2]

theorem stateAgree_addEmbedRow_left (s1 s2 : RunState) (r : EmbeddingRow)
    (h : StateAgree s1 s2) : StateAgree (addRecord s1 (.embedRow r)) s2 := by
  refine ⟨h.1, h.2.1, h.2.2.1, ?_⟩
  show (s1.records ++ [DbRecord.embedRow r]).filter _ = _
  rw [List.filter_append, h.2.2.2]
  simp [isEmbedRecord]

theorem stateAgree_addEmbedRow_right (s1 s2 : RunState) (r : EmbeddingRow)
    (h : StateAgree s1 s2) : StateAgree s1 (addRecord s2 (.embedRow r)) := by
  refine ⟨h.1, h.2.1, h.2.2.1, ?_⟩
  show _ = (s2.records ++ [DbRecord.embedRow r]).filter _
  rw [List.filter_append, h.2.2.2]
  simp [isEmbedRecord]

theorem stateAgree_embed (e1 e2 : Env) (b64 tpid url : String) (s1 s2 : RunState)
    (h : StateAgree s1 s2) :
    StateAgree (generateAndStoreEmbedding e1 b64 tpid url s1)
      (generateAndStoreEmbedding e2 b64 tpid url s2) := by
  have hl := stateAgree_logCall s1 s2 .generateEmbedding h
  rcases generateAndStoreEmbedding_cases e1 b64 tpid url s1 with h1 | ⟨r1, h1⟩ <;>
    rcases generateAndStoreEmbedding_cases e2 b64 tpid url s2 with h2 | ⟨r2, h2⟩ <;>
    rw [h1, h2]
  · exact hl
  · exact stateAgree_addEmbedRow_right _ _ r2 hl
  · exact stateAgree_addEmbedRow_left _ _ r1 hl
  · exact stateAgree_addEmbedRow_left _ _ r1 (stateAgree_addEmbedRow_right _ _ r2 hl)

theorem uploadObject_agree (e1 e2 : Env) (hU : e1.uploadFails = e2.uploadFails)
    (b p c : String) (s1 s2 : RunState) (h : StateAgree s1 s2) :
    (uploadObject e1 b p c s1).1 = (uploadObject e2 b p c s2).1 ∧
    StateAgree (uploadObject e1 b p c s1).2 (uploadObject e2 b p c s2).2 := by
  unfold uploadObject
  rw [h.1, hU]
  cases h1 : (findObj s2.storage b p).isSome
  · cases h2 : e2.uploadFails b p
    · exact ⟨rfl, ⟨rfl, h.2.1, h.2.2.1, h.2.2.2⟩⟩
    · exact ⟨rfl, h⟩
  · exact ⟨rfl, h⟩

theorem insertPhotoRow_agree (e1 e2 : Env)
    (hI : e1.insertPhotoRowFails = e2.insertPhotoRowFails) (r : TestphotoRow)
    (s1 s2 : RunState) (h : StateAgree s1 s2) :
    (insertPhotoRow e1 r s1).1 = (insertPhotoRow e2 r s2).1 ∧
    StateAgree (insertPhotoRow e1 r s1).2 (insertPhotoRow e2 r s2).2 := by
  unfold insertPhotoRow
  rw [hI]
  cases hf : e2.insertPhotoRowFails r
  · exact ⟨rfl, stateAgree_addPhotoRow s1 s2 r h⟩
  · exact ⟨rfl, h⟩

theorem cropRowFor_congr (e1 e2 : Env) (hNow : e1.now = e2.now) (rid : String)
    (c : FaceCropData) : cropRowFor e1 rid c = cropRowFor e2 rid c := by
  unfold cropRowFor
  rw [hNow]

theorem uploadedRowFor_congr (e1 e2 : Env) (hNow : e1.now = e2.now) (userId : String)
    (photo : Photo) : uploadedRowFor e1 userId photo = uploadedRowFor e2 userId photo := by
  unfold uploadedRowFor
  rw [hNow]

theorem storeFaceCrops_agree (e1 e2 : Env) (hagn : embedAgnostic e1 e2)
    (crops : List FaceCropData) (rid : String) :
    ∀ s1 s2 : RunState, StateAgree s1 s2 →
      (storeFaceCrops e1 crops rid s1).1 = (storeFaceCrops e2 crops rid s2).1 ∧
      StateAgree (storeFaceCrops e1 crops rid s1).2 (storeFaceCrops e2 crops rid s2).2 := by
  obtain ⟨hInit, hDet, hCrop, hProc, hU, hI, hNow⟩ := hagn
  induction crops with
  | nil => exact fun s1 s2 h => ⟨rfl, h⟩
  | cons c rest ih =>
    intro s1 s2 h
    simp only [storeFaceCrops]
    rw [hNow, cropRowFor_congr e1 e2 hNow rid c]
    have hupA := uploadObject_agree e1 e2 hU "face_crops"
      (cropFileNameFor e2.now rid c.face_id) c.face_crop_base64 s1 s2 h
    rcases hu1 : uploadObject e1 "face_crops" (cropFileNameFor e2.now rid c.face_id)
      c.face_crop_base64 s1 with ⟨r1, t1⟩
    rcases hu2 : uploadObject e2 "face_crops" (cropFileNameFor e2.now rid c.face_id)
      c.face_crop_base64 s2 with ⟨r2, t2⟩
    rw [hu1, hu2] at hupA
    have hr : r1 = r2 := hupA.1
    have ht : StateAgree t1 t2 := hupA.2
    subst hr
    cases r1 with
    | error e => exact ⟨rfl, ht⟩
    | ok u =>
      cases u
      have hinsA := insertPhotoRow_agree e1 e2 hI (cropRowFor e2 rid c) t1 t2 ht
      rcases hi1 : insertPhotoRow e1 (cropRowFor e2 rid c) t1 with ⟨q1, w1⟩
      rcases hi2 : insertPhotoRow e2 (cropRowFor e2 rid c) t2 with ⟨q2, w2⟩
      simp only [hi1, hi2]
      rw [hi1, hi2] at hinsA
      have hq : q1 = q2 := hinsA.1
      have hw : StateAgree w1 w2 := hinsA.2
      subst hq
      cases q1 with
      | error e => exact ⟨rfl, hw⟩
      | ok u2 =>
        cases u2
        exact ih _ _ (stateAgree_embed e1 e2 c.face_crop_base64
          (tempPersonIdFor e2.now c.face_id)
          (getPublicUrl "face_crops" (cropFileNameFor e2.now rid c.face_id)) w1 w2 hw)

theorem detectFace_agree (e1 e2 : Env)
    (hInit : e1.faceApiInitialized = e2.faceApiInitialized)
    (hDet : e1.detectResp = e2.detectResp) (photo : Photo) (s1 s2 : RunState)
    (h : StateAgree s1 s2) :
    (detectFace e1 photo s1).1 = (detectFace e2 photo s2).1 ∧
    StateAgree (detectFace e1 photo s1).2 (detectFace e2 photo s2).2 := by
  unfold detectFace
  rw [hInit, hDet]
  have hl := stateAgree_logCall s1 s2 .detectFaces h
  cases e2.faceApiInitialized
  · exact ⟨rfl, h⟩
  · rcases e2.detectResp with _ | ⟨ok, body⟩
    · exact ⟨rfl, hl⟩
    · cases ok
      · exact ⟨rfl, hl⟩
      · exact ⟨rfl, hl⟩

theorem annotateOnly_agree (e1 e2 : Env) (hProc : e1.processResp = e2.processResp)
    (photo : Photo) (s1 s2 : RunState) (h : StateAgree s1 s2) :
    (annotateOnly e1 photo s1).1 = (annotateOnly e2 photo s2).1 ∧
    StateAgree (annotateOnly e1 photo s1).2 (annotateOnly e2 photo s2).2 := by
  unfold annotateOnly
  rw [hProc]
  have hl := stateAgree_logCall s1 s2 .processFaces h
  rcases e2.processResp with _ | ⟨ok, ⟨hf, fd, pi⟩⟩
  · exact ⟨rfl, hl⟩
  · cases ok
    · exact ⟨rfl, hl⟩
    · cases hf
      · exact ⟨rfl, hl⟩
      · exact ⟨rfl, hl⟩

theorem mainPathTail_agree (e1 e2 : Env) (hProc : e1.processResp = e2.processResp)
    (photo : Photo) (s1 s2 : RunState) (h : StateAgree s1 s2) :
    (mainPathTail e1 photo s1).1 = (mainPathTail e2 photo s2).1 ∧
    StateAgree (mainPathTail e1 photo s1).2 (mainPathTail e2 photo s2).2 := by
  unfold mainPathTail
  rw [hProc]
  have hl := stateAgree_logCall s1 s2 .processFaces h
  rcases e2.processResp with _ | ⟨ok, ⟨hf, fd, pi⟩⟩
  · exact ⟨rfl, hl⟩
  · cases ok
    · exact ⟨rfl, hl⟩
    · exact ⟨rfl, hl⟩

theorem processPhotoWithFace_agree (e1 e2 : Env) (hagn : embedAgnostic e1 e2)
    (photo : Photo) (s1 s2 : RunState) (h : StateAgree s1 s2) :
    (processPhotoWithFace e1 photo s1).1 = (processPhotoWithFace e2 photo s2).1 ∧
    StateAgree (processPhotoWithFace e1 photo s1).2 (processPhotoWithFace e2 photo s2).2 := by
  obtain ⟨hInit, hDet, hCrop, hProc, hU, hI, hNow⟩ := hagn
  have hl := stateAgree_logCall s1 s2 .cropFaces h
  cases hin2 : e2.faceApiInitialized with
  | false =>
    rw [processPhotoWithFace_notInit e1 photo s1 (hInit.trans hin2),
        processPhotoWithFace_notInit e2 photo s2 hin2]
    exact ⟨rfl, h⟩
  | true =>
    have hin1 : e1.faceApiInitialized = true := hInit.trans hin2
    rcases hcr : e2.cropResp with _ | ⟨ok, body⟩
    · rw [processPhotoWithFace_cropNetFail e1 photo s1 hin1 (hCrop.trans hcr),
          processPhotoWithFace_cropNetFail e2 photo s2 hin2 hcr]
      exact ⟨rfl, hl⟩
    · cases ok with
      | false =>
        rw [processPhotoWithFace_cropHttpErr e1 photo s1 body hin1 (hCrop.trans hcr),
            processPhotoWithFace_cropHttpErr e2 photo s2 body hin2 hcr]
        exact annotateOnly_agree e1 e2 hProc photo _ _ hl
      | true =>
        cases hbf : body.has_faces with
        | false =>
          rw [processPhotoWithFace_cropNoFaces e1 photo s1 body hin1 (hCrop.trans hcr) hbf,
              processPhotoWithFace_cropNoFaces e2 photo s2 body hin2 hcr hbf]
          exact ⟨rfl, hl⟩
        | true =>
          rw [processPhotoWithFace_mainPath e1 photo s1 body hin1 (hCrop.trans hcr) hbf,
              processPhotoWithFace_mainPath e2 photo s2 body hin2 hcr hbf]
          have hsfA := storeFaceCrops_agree e1 e2
            ⟨hInit, hDet, hCrop, hProc, hU, hI, hNow⟩ body.face_crops photo.requestId
            (logCall s1 .cropFaces) (logCall s2 .cropFaces) hl
          rcases hs1 : storeFaceCrops e1 body.face_crops photo.requestId
            (logCall s1 .cropFaces) with ⟨r1, t1⟩
          rcases hs2 : storeFaceCrops e2 body.face_crops photo.requestId
            (logCall s2 .cropFaces) with ⟨r2, t2⟩
          rw [hs1, hs2] at hsfA
          have hr : r1 = r2 := hsfA.1
          have ht : StateAgree t1 t2 := hsfA.2
          subst hr
          cases r1 with
          | error e => exact ⟨rfl, ht⟩
          | ok u =>
            cases u
            exact mainPathTail_agree e1 e2 hProc photo t1 t2 ht

theorem uploadPhotoAndCreateEncounter_agree (e1 e2 : Env)
    (hU : e1.uploadFails = e2.uploadFails)
    (hI : e1.insertPhotoRowFails = e2.insertPhotoRowFails) (hNow : e1.now = e2.now)
    (p1 p2 : Photo) (hp : p1 = p2) (userId : String) (s1 s2 : RunState)
    (h : StateAgree s1 s2) :
    (uploadPhotoAndCreateEncounter e1 p1 userId s1).1 =
      (uploadPhotoAndCreateEncounter e2 p2 userId s2).1 ∧
    StateAgree (uploadPhotoAndCreateEncounter e1 p1 userId s1).2
      (uploadPhotoAndCreateEncounter e2 p2 userId s2).2 := by
  subst hp
  unfold uploadPhotoAndCreateEncounter
  rw [uploadedRowFor_congr e1 e2 hNow userId p1]
  have hupA := uploadObject_agree e1 e2 hU "testphoto" (photoFileName userId p1)
    p1.buffer s1 s2 h
  rcases hu1 : uploadObject e1 "testphoto" (photoFileName userId p1) p1.buffer s1
    with ⟨r1, t1⟩
  rcases hu2 : uploadObject e2 "testphoto" (photoFileName userId p1) p1.buffer s2
    with ⟨r2, t2⟩
  rw [hu1, hu2] at hupA
  have hr : r1 = r2 := hupA.1
  have ht : StateAgree t1 t2 := hupA.2
  subst hr
  cases r1 with
  | error e => exact ⟨rfl, ht⟩
  | ok u =>
    cases u
    have hinsA := insertPhotoRow_agree e1 e2 hI (uploadedRowFor e2 userId p1) t1 t2 ht
    rcases hi1 : insertPhotoRow e1 (uploadedRowFor e2 userId p1) t1 with ⟨q1, w1⟩
    rcases hi2 : insertPhotoRow e2 (uploadedRowFor e2 userId p1) t2 with ⟨q2, w2⟩
    simp only [hi1, hi2]
    rw [hi1, hi2] at hinsA
    have hq : q1 = q2 := hinsA.1
    have hw : StateAgree w1 w2 := hinsA.2
    subst hq
    cases q1 with
    | error e => exact ⟨rfl, hw⟩
    | ok u2 =>
      cases u2
      exact ⟨rfl, hw⟩

/-- C5: the embedding step never interferes with crop persistence or
the pipeline outcome: two runs whose environments agree on everything
except the embedding-service responses and the failure behaviour of
face_embeddings inserts produce the same registry, the same storage
objects, the same call-trace, the same text walls, and the same
non-embedding database rows — so an embedding failure for any crop
(logical, transport, or record-write) never prevents that crop's
face_crop row, never prevents the later crops, and never aborts the
photo's pipeline. -/
theorem embedding_failures_noninterference (e1 e2 : Env) (photo : Photo)
    (userId : String) (photos : List Photo) (s : RunState)
    (hagn : embedAgnostic e1 e2) :
    (onButtonPress e1 photo userId photos s).1 =
      (onButtonPress e2 photo userId photos s).1 ∧
    StateAgree (onButtonPress e1 photo userId photos s).2
      (onButtonPress e2 photo userId photos s).2 := by
  obtain ⟨hInit, hDet, hCrop, hProc, hU, hI, hNow⟩ := hagn
  have hdA := detectFace_agree e1 e2 hInit hDet photo
    (showTextWall s "Taking photo...") (showTextWall s "Taking photo...")
    (stateAgree_refl _)
  cases hd2 : (detectFace e2 photo (showTextWall s "Taking photo...")).1 with
  | false =>
    have hd1 : (detectFace e1 photo (showTextWall s "Taking photo...")).1 = false :=
      hdA.1.trans hd2
    rw [onButtonPress_noFace e1 photo userId photos s hd1,
        onButtonPress_noFace e2 photo userId photos s hd2]
    exact ⟨rfl, stateAgree_showTextWall _ _ _ hdA.2⟩
  | true =>
    have hd1 : (detectFace e1 photo (showTextWall s "Taking photo...")).1 = true :=
      hdA.1.trans hd2
    rw [onButtonPress_hasFace e1 photo userId photos s hd1,
        onButtonPress_hasFace e2 photo userId photos s hd2]
    have hpA := processPhotoWithFace_agree e1 e2 ⟨hInit, hDet, hCrop, hProc, hU, hI, hNow⟩
      photo _ _ hdA.2
    have hfA : (finalUpload e1 photo userId s).1 = (finalUpload e2 photo userId s).1 ∧
        StateAgree (finalUpload e1 photo userId s).2 (finalUpload e2 photo userId s).2 :=
      uploadPhotoAndCreateEncounter_agree e1 e2 hU hI hNow
        (procResult e1 photo s).1 (procResult e2 photo s).1 hpA.1 userId
        (procResult e1 photo s).2 (procResult e2 photo s).2 hpA.2
    rcases hf1 : finalUpload e1 photo userId s with ⟨r1, t1⟩
    rcases hf2 : finalUpload e2 photo userId s with ⟨r2, t2⟩
    rw [hf1, hf2] at hfA
    have hr : r1 = r2 := hfA.1
    have ht : StateAgree t1 t2 := hfA.2
    subst hr
    cases r1 with
    | error e => exact ⟨rfl, stateAgree_showTextWall _ _ _ ht⟩
    | ok u =>
      cases u
      exact ⟨rfl, stateAgree_showTextWall _ _ _ ht⟩

/-- C5 witness: a concrete run with a working embedding service and the
same run with the embedding service unreachable agree on everything
except face_embeddings rows. -/
theorem embedding_failures_noninterference_witness :
    (onButtonPress envBase photoA "user1" [] s0).1 =
      (onButtonPress envNoEmbed photoA "user1" [] s0).1 ∧
    StateAgree (onButtonPress envBase photoA "user1" [] s0).2
      (onButtonPress envNoEmbed photoA "user1" [] s0).2 :=
  embedding_failures_noninterference envBase envNoEmbed photoA "user1" [] s0
    ⟨rfl, rfl, rfl, rfl, rfl, rfl, rfl⟩

end MentraPhoto
